import Mathlib

/-!
Verification of the ICTech FinAI chatbot backend (Python/FastAPI) against its
natural-language specification.  The Python modules relevant to the claims are
shallowly embedded as executable Lean definitions:

* `app/utils/date_parser.py`   — `DateRange`, `parse_date_query_regex`,
  `get_period_key_for_range`;
* `app/agents/tools/compliance.py` — freshness validation, confidence score,
  `finalize_response`;
* `app/services/chat_service.py`   — the response-cache write guard;
* `app/agents/tools/researcher.py` — the static fallback fund data and the
  scored fallback matcher;
* `app/agents/investment_agent.py` — the fetch orchestration (off-topic
  short-circuit, fund merge/de-duplication), the deterministic backfill
  builders and the on-error response;
* `app/utils/query_analyzer.py`    — the regex fallback analyzer;
* `app/utils/calculations.py`      — `calculate_cagr`.

Modelling conventions: Python `datetime` values are seconds since the Unix
epoch (`Int`), dates are civil-day numbers (`Int`); Python floats that are
only ever compared or added (confidence scores) are `ℚ`; the real-valued CAGR
computation uses `ℝ` with `Real.rpow` for `**`.  Strings are modelled with
Lean `String`/`List Char`; the Python code only ever lowercases ASCII data,
so lowercasing is ASCII lowercasing.
-/

set_option maxRecDepth 8000

namespace FinAI

/-! ## Calendar arithmetic (Python `datetime` / `date`)

`days_from_civil` and `civil_from_days` are the standard Gregorian
conversions; a `datetime` is seconds since 1970-01-01T00:00:00, a `date` is
days since 1970-01-01.  `datetime(y, m, d)` in the Python source always
receives an in-range month and day, so no validity flag is needed here
(validity checking for *parsed* date strings appears with `strptime` below).
-/

/-- Civil date → days since the Unix epoch (proleptic Gregorian). -/
def daysFromCivil (y m d : Int) : Int :=
  let y' := if m ≤ 2 then y - 1 else y
  let era := y'.fdiv 400
  let yoe := y' - era * 400
  let mp := (m + 9).emod 12
  let doy := (153 * mp + 2).fdiv 5 + d - 1
  let doe := yoe * 365 + yoe.fdiv 4 - yoe.fdiv 100 + doy
  era * 146097 + doe - 719468

/-- Days since the Unix epoch → civil (year, month, day). -/
def civilFromDays (z : Int) : Int × Int × Int :=
  let z' := z + 719468
  let era := z'.fdiv 146097
  let doe := z' - era * 146097
  let yoe := (doe - doe.fdiv 1460 + doe.fdiv 36524 - doe.fdiv 146096).fdiv 365
  let y := yoe + era * 400
  let doy := doe - (365 * yoe + yoe.fdiv 4 - yoe.fdiv 100)
  let mp := (5 * doy + 2).fdiv 153
  let d := doy - (153 * mp + 2).fdiv 5 + 1
  let m := mp + (if mp < 10 then 3 else -9)
  (if m ≤ 2 then y + 1 else y, m, d)

/-- Seconds in one day. -/
def secPerDay : Int := 86400

/-- Python `datetime(y, m, d)` (midnight), as epoch seconds. -/
def mkDatetime (y m d : Int) : Int :=
  secPerDay * daysFromCivil y m d

/-- `dt.year` of an epoch-seconds datetime. -/
def yearOf (t : Int) : Int :=
  (civilFromDays (t.fdiv secPerDay)).1

/-! ## `DateRange` (`app/utils/date_parser.py`, lines 18–35) -/

/-- `DateRange` dataclass: `start_date`/`end_date` are epoch seconds. -/
structure DateRange where
  start_date : Int
  end_date : Int
  period_label : String
  deriving DecidableEq

/-- `DateRange.days`: `(end_date - start_date).days` — Python `timedelta.days`
floors towards minus infinity, hence `Int.fdiv`. -/
def DateRange.days (r : DateRange) : Int :=
  (r.end_date - r.start_date).fdiv secPerDay

/-- `DateRange.months`: `max(1, days // 30)`. -/
def DateRange.months (r : DateRange) : Int :=
  max 1 (r.days.fdiv 30)

/-- `get_period_key_for_range` (`date_parser.py`, lines 366–383). -/
def get_period_key_for_range (date_range : DateRange) : String :=
  let days := date_range.days
  if days ≤ 45 then "1m"
  else if days ≤ 100 then "3m"
  else if days ≤ 200 then "6m"
  else if days ≤ 550 then "1y"
  else if days ≤ 1400 then "3y"
  else "5y"

/-! ## Structured agent outputs (`app/models/agent_outputs.py`)

`accessed_at` timestamps are epoch seconds.  `InvestmentResponse` keeps the
pydantic field defaults (`explanation=""`, empty lists, the short default
disclaimer, `confidence_score=0.8`): constructing the model with unknown
keyword arguments leaves a field at its default, which matters for the
off-topic branch below.
-/

/-- `DataPoint` (pydantic model). -/
structure DataPoint where
  metric : String
  value : String
  as_of_date : String
  deriving DecidableEq

/-- `Source` (pydantic model); `accessed_at` is epoch seconds. -/
structure Source where
  name : String
  url : String
  accessed_at : Int
  deriving DecidableEq

/-- Default `risk_disclaimer` of the `InvestmentResponse` pydantic model. -/
def DEFAULT_MODEL_DISCLAIMER : String :=
  "Mutual fund investments are subject to market risks. Please read all scheme-related documents carefully before investing. Past performance is not indicative of future returns."

/-- `InvestmentResponse` (pydantic model); `confidence_score` is a float in
[0,1], modelled as `ℚ`. -/
structure InvestmentResponse where
  explanation : String := ""
  data_points : List DataPoint := []
  sources : List Source := []
  risk_disclaimer : String := DEFAULT_MODEL_DISCLAIMER
  confidence_score : ℚ := 0.8
  deriving DecidableEq

/-! ## `strptime` for the three accepted date formats
(`app/agents/tools/compliance.py`, `validate_data_freshness`)

CPython's `strptime` compiles `%Y` to exactly four digits, `%m` to
`1[0-2]|0[1-9]|[1-9]`, `%d` to `3[01]|[12]\d|0[1-9]|[1-9]`, `%b` to the
case-insensitive month abbreviations, and a whitespace run in the format to
one-or-more whitespace; the whole string must be consumed, and an
out-of-range calendar date raises `ValueError`.  Each parser returns the
civil day number of the parsed date, or `none` where `strptime` raises.
-/

/-- Digit value of an ASCII digit character. -/
def dv (c : Char) : Int :=
  (c.toNat : Int) - 48

/-- Python whitespace (`\s` over ASCII). -/
def isSpaceChar (c : Char) : Bool :=
  c = ' ' ∨ c = '\t' ∨ c = '\n' ∨ c = '\r' ∨ c = '\x0b' ∨ c = '\x0c'

/-- Gregorian leap year (`calendar.isleap`). -/
def isLeapYear (y : Int) : Bool :=
  (y.emod 4 = 0 ∧ y.emod 100 ≠ 0) ∨ y.emod 400 = 0

/-- Days in a month of a given year. -/
def daysInMonth (y m : Int) : Int :=
  if m = 2 then (if isLeapYear y then 29 else 28)
  else if m = 4 ∨ m = 6 ∨ m = 9 ∨ m = 11 then 30
  else 31

/-- A (year, month, day) triple `datetime` accepts (month/day bounds are
checked by the callers; this adds the year floor and the month length). -/
def validDate (y m d : Int) : Bool :=
  1 ≤ y ∧ 1 ≤ d ∧ d ≤ daysInMonth y m

/-- `%m`/`%d`-style field: a two-digit value in `1..maxV` if the regex's
two-digit alternatives apply, else one nonzero digit; the continuation `k`
receives the value and the unconsumed input (backtracking from the two-digit
to the one-digit reading exactly as the compiled regex does). -/
def parse2or1 (maxV : Int) (k : Int → List Char → Option Int) :
    List Char → Option Int
  | c1 :: c2 :: rest =>
    let two : Option Int :=
      if c1.isDigit ∧ c2.isDigit then
        let v := 10 * dv c1 + dv c2
        if 1 ≤ v ∧ v ≤ maxV then k v rest else none
      else none
    (match two with
     | some r => some r
     | none => if c1.isDigit ∧ 1 ≤ dv c1 then k (dv c1) (c2 :: rest) else none)
  | [c1] => if c1.isDigit ∧ 1 ≤ dv c1 then k (dv c1) [] else none
  | [] => none

/-- `"%Y-%m-%d"`. -/
def strptimeYmd (s : List Char) : Option Int :=
  match s with
  | a :: b :: c :: d :: '-' :: rest =>
    if a.isDigit ∧ b.isDigit ∧ c.isDigit ∧ d.isDigit then
      let y := 1000 * dv a + 100 * dv b + 10 * dv c + dv d
      parse2or1 12 (fun m rest2 =>
        match rest2 with
        | '-' :: rest3 =>
          parse2or1 31 (fun dd rest4 =>
            if rest4 = [] ∧ validDate y m dd then some (daysFromCivil y m dd)
            else none) rest3
        | _ => none) rest
    else none
  | _ => none

/-- `"%d-%m-%Y"`. -/
def strptimeDmy (s : List Char) : Option Int :=
  parse2or1 31 (fun dd rest =>
    match rest with
    | '-' :: rest2 =>
      parse2or1 12 (fun m rest3 =>
        match rest3 with
        | '-' :: a :: b :: c :: d :: rest4 =>
          if a.isDigit ∧ b.isDigit ∧ c.isDigit ∧ d.isDigit ∧ rest4 = [] then
            let y := 1000 * dv a + 100 * dv b + 10 * dv c + dv d
            if validDate y m dd then some (daysFromCivil y m dd) else none
          else none
        | _ => none) rest2
    | _ => none) s

/-- The `%b` month abbreviations, matched case-insensitively. -/
def monthAbbrs : List (String × Int) :=
  [("jan", 1), ("feb", 2), ("mar", 3), ("apr", 4), ("may", 5), ("jun", 6),
   ("jul", 7), ("aug", 8), ("sep", 9), ("oct", 10), ("nov", 11), ("dec", 12)]

/-- ASCII lowercase of a character (the modelled data is ASCII). -/
def lowerChar (c : Char) : Char :=
  if 'A' ≤ c ∧ c ≤ 'Z' then Char.ofNat (c.toNat + 32) else c

/-- Match one `%b` month abbreviation as a prefix, case-insensitively. -/
def matchMonthAbbr (s : List Char) : Option (Int × List Char) :=
  match s with
  | c1 :: c2 :: c3 :: rest =>
    match monthAbbrs.lookup (String.mk [lowerChar c1, lowerChar c2, lowerChar c3]) with
    | some m => some (m, rest)
    | none => none
  | _ => none

/-- One-or-more whitespace (a whitespace run in the format string). -/
def skipSpaces1 (s : List Char) : Option (List Char) :=
  match s with
  | c :: rest =>
    if isSpaceChar c then
      some (rest.dropWhile isSpaceChar)
    else none
  | [] => none

/-- `"%d %b %Y"`. -/
def strptimeDbY (s : List Char) : Option Int :=
  parse2or1 31 (fun dd rest =>
    match skipSpaces1 rest with
    | some rest2 =>
      match matchMonthAbbr rest2 with
      | some (m, rest3) =>
        (match skipSpaces1 rest3 with
         | some (a :: b :: c :: d :: rest4) =>
           if a.isDigit ∧ b.isDigit ∧ c.isDigit ∧ d.isDigit ∧ rest4 = [] then
             let y := 1000 * dv a + 100 * dv b + 10 * dv c + dv d
             if validDate y m dd then some (daysFromCivil y m dd) else none
           else none
         | _ => none)
      | none => none
    | none => none) s

/-- The `for fmt in [...]` loop body of `validate_data_freshness`: the first
format that parses wins; `none` when all three raise `ValueError`. -/
def parseAsOfDate (s : String) : Option Int :=
  match strptimeYmd s.toList with
  | some d => some d
  | none =>
    match strptimeDmy s.toList with
    | some d => some d
    | none => strptimeDbY s.toList

/-! ## Compliance (`app/agents/tools/compliance.py`) -/

/-- `STANDARD_RISK_DISCLAIMER`. -/
def STANDARD_RISK_DISCLAIMER : String :=
  "Mutual fund investments are subject to market risks. Please read all scheme-related documents carefully before investing. Past performance is not indicative of future returns. The information provided is for educational purposes only and should not be considered as personalized financial advice. Please consult a qualified financial advisor before making investment decisions."

/-- `ComplianceCheckResult` (pydantic model, defaults as in the source). -/
structure ComplianceCheckResult where
  is_compliant : Bool := true
  has_disclaimer : Bool := false
  has_sources : Bool := false
  has_data_points : Bool := false
  missing_elements : List String := []
  risk_disclaimer : String := STANDARD_RISK_DISCLAIMER
  deriving DecidableEq

/-- `check_response_compliance` (lines 27–65): collects missing elements;
`is_compliant` is finally overwritten with `len(missing) == 0`. -/
def check_response_compliance (explanation : String)
    (data_points : List DataPoint) (sources : List Source) :
    ComplianceCheckResult :=
  let missing₁ : List String :=
    if explanation = "" ∨ explanation.length < 10 then ["meaningful explanation"] else []
  let missing₂ : List String :=
    missing₁ ++ (if data_points = [] then ["data points with specific metrics"] else [])
  let missing₃ : List String :=
    missing₂ ++ (if sources = [] then ["source citations"] else [])
  { is_compliant := missing₃ = []
    has_disclaimer := false
    has_sources := sources ≠ []
    has_data_points := data_points ≠ []
    missing_elements := missing₃
    risk_disclaimer := STANDARD_RISK_DISCLAIMER }

/-- The stale-point check for one data point (`validate_data_freshness` loop
body): a point is reported stale only when some format parses its
`as_of_date` and the parsed date is more than `max_age_days` days before
`today`; a date no format parses is silently skipped. -/
def stalePointOf (todayD max_age_days : Int) (dp : DataPoint) : Option String :=
  match parseAsOfDate dp.as_of_date with
  | some d => if todayD - d > max_age_days then some dp.metric else none
  | none => none

/-- `validate_data_freshness` (lines 119–152); `todayD` is
`datetime.utcnow().date()` as a day number. -/
def validate_data_freshness (todayD : Int) (data_points : List DataPoint)
    (max_age_days : Int) : Bool × List String :=
  let stale_points := data_points.filterMap (stalePointOf todayD max_age_days)
  (stale_points = [], stale_points)

/-- `calculate_confidence_score` (lines 155–184). -/
def calculate_confidence_score (has_data_points has_sources data_fresh
    query_matched : Bool) : ℚ :=
  let score : ℚ :=
    0.4 + (if has_data_points then 0.2 else 0) + (if has_sources then 0.2 else 0)
      + (if data_fresh then 0.1 else 0) + (if query_matched then 0.1 else 0)
  min score 1.0

/-- `finalize_response` (lines 187–223); `query_matched` defaults to `True`. -/
def finalize_response (todayD : Int) (explanation : String)
    (data_points : List DataPoint) (sources : List Source) :
    InvestmentResponse :=
  let compliance := check_response_compliance explanation data_points sources
  let data_fresh := (validate_data_freshness todayD data_points 7).1
  let confidence := calculate_confidence_score compliance.has_data_points
    compliance.has_sources data_fresh true
  { explanation := explanation
    data_points := data_points
    sources := sources
    risk_disclaimer := compliance.risk_disclaimer
    confidence_score := confidence }

/-! ## Generic string helpers (Python `str.lower`, `in`, `split`) -/

/-- Python `str.lower()` (the modelled data is ASCII). -/
def toLowerStr (s : String) : String :=
  String.mk (s.toList.map lowerChar)

/-- `n` is a prefix of `h`. -/
def isPrefixList (n h : List Char) : Bool :=
  match n, h with
  | [], _ => true
  | _ :: _, [] => false
  | a :: as_, b :: bs => a = b ∧ isPrefixList as_ bs

/-- `n` occurs as a contiguous substring of `h` (Python `n in h`). -/
def isInfixList (n : List Char) : List Char → Bool
  | [] => isPrefixList n []
  | c :: t => isPrefixList n (c :: t) ∨ isInfixList n t

/-- Python `needle in hay` on strings. -/
def strContains (hay needle : String) : Bool :=
  isInfixList needle.toList hay.toList

/-- Python `str.split()` with no argument: split on whitespace runs,
dropping empty pieces. -/
def pySplit (s : String) : List String :=
  ((s.toList.splitOnP isSpaceChar).map String.mk).filter (fun w => w ≠ "")

/-! ## Response cache guard (`app/services/chat_service.py`, lines 55–77)

`_cache_response` performs the cache write only when neither skip guard
fires; the function below is `true` exactly when the write happens.  Note
the first guard is `if response.confidence_score and response.confidence_score < 0.5`,
so a Python-falsy score of `0.0` does *not* trigger the low-confidence skip.
-/

/-- The `error_indicators` list. -/
def error_indicators : List String :=
  ["apologize", "error processing", "encountered an error", "try rephrasing"]

/-- `true` iff `_cache_response` reaches `self._cache.set(...)`. -/
def cache_write_allowed (response : InvestmentResponse) : Bool :=
  if response.confidence_score ≠ 0 ∧ response.confidence_score < 0.5 then
    false
  else
    let explanation_lower := toLowerStr response.explanation
    if error_indicators.any (fun ind => strContains explanation_lower ind) then
      false
    else true

/-! ## Calculations (`app/utils/calculations.py`) -/

/-- Python `round(x, 2)` (banker's rounding, half-to-even); Mathlib's
`round` is half-up and agrees off ties. -/
noncomputable def pyRound2 (x : ℝ) : ℝ :=
  let y := x * 100
  (if Int.fract y = 1 / 2 then
    (if Even ⌊y⌋ then (⌊y⌋ : ℝ) else (⌊y⌋ : ℝ) + 1)
  else (round y : ℝ)) / 100

/-- `calculate_cagr` (lines 4–29); `**` on a positive base is `Real.rpow`,
so the guarded expression never raises and the source's `except` arm is
unreachable. -/
noncomputable def calculate_cagr (beginning_value ending_value years : ℝ) :
    Option ℝ :=
  if beginning_value ≤ 0 ∨ ending_value ≤ 0 ∨ years ≤ 0 then none
  else
    some (pyRound2 (((ending_value / beginning_value) ^ ((1 : ℝ) / years) - 1) * 100))

/-! ## Number rendering helpers for Python f-strings

Python renders the seed NAV floats with their shortest decimal literal
(`repr(85.67) = "85.67"`); every float in the modelled data is a terminating
decimal, so the rendering below is exact for them.
-/

/-- Zero-pad a string on the left to `k` characters. -/
def padZeros (k : Nat) (s : String) : String :=
  String.mk (List.replicate (k - s.length) '0') ++ s

/-- Decimal literal of a terminating-decimal rational, with at least one
fractional digit (Python float `repr` for the modelled values). -/
def decimalRepr (q : ℚ) : String :=
  let k := (((List.range 31).find? (fun k => (q * (10 : ℚ) ^ k).den = 1)).getD 30).max 1
  let n := (q * (10 : ℚ) ^ k).num
  let ip := n.fdiv ((10 : ℤ) ^ k)
  let fp := n.emod ((10 : ℤ) ^ k)
  toString ip ++ "." ++ padZeros k (toString fp.natAbs)

/-- Python `f"{x}"` where `x` is an optional float (`None` renders as
`"None"`). -/
def optFloatRepr (q : Option ℚ) : String :=
  match q with
  | some v => decimalRepr v
  | none => "None"

/-- Python `f"{x:+.2f}"` — sign, two decimals — extended to `none` for
totality (the source would raise `TypeError` there; no modelled run reaches
it). -/
def signedTwoDecimals (q : Option ℚ) : String :=
  match q with
  | none => "None"
  | some v =>
    let n : ℤ := if Int.fract (v * 100) = 1 / 2 then
        (if Even ⌊v * 100⌋ then ⌊v * 100⌋ else ⌊v * 100⌋ + 1)
      else round (v * 100)
    let sign := if n < 0 then "-" else "+"
    sign ++ toString (n.natAbs / 100) ++ "." ++ padZeros 2 (toString (n.natAbs % 100))

/-- Python `str.title()` for the modelled (ASCII, space-separated) category
names. -/
def titleStr (s : String) : String :=
  String.mk (List.intercalate [' '] ((pySplit s).map (fun w =>
    match w.toList with
    | [] => []
    | c :: rest => (if 'a' ≤ c ∧ c ≤ 'z' then Char.ofNat (c.toNat - 32) else c) :: rest)))

/-! ## Researcher (`app/agents/tools/researcher.py`) -/

/-- `get_amfi_fund_url` (lines 67–69). -/
def get_amfi_fund_url (scheme_code : String) : String :=
  "https://www.amfiindia.com/net-asset-value-details?mf=ALL&cat=ALL&aession=CURRENTDATE&SchemeCode=" ++ scheme_code

/-- `get_yahoo_stock_url` (lines 79–82). -/
def get_yahoo_stock_url (symbol : String) : String :=
  "https://finance.yahoo.com/quote/" ++ symbol ++ "/"

/-- `FundResearchResult` (pydantic model).  `moneycontrol_url` and
`fetched_at` are derived metadata no claim touches and are omitted;
`source_url` is filled by `__init__` from the scheme code whenever it is not
supplied, which is the case for every fallback record. -/
structure FundResearchResult where
  scheme_code : String
  scheme_name : String
  nav : Option ℚ := none
  nav_date : Option String := none
  category : Option String := none
  fund_house : Option String := none
  returns : List (String × String) := []
  source_url : String := ""
  deriving DecidableEq

/-- `StockResearchResult` (pydantic model), without the `fetched_at`
metadata. -/
structure StockResearchResult where
  symbol : String
  name : Option String := none
  current_price : Option ℚ := none
  change_percent : Option ℚ := none
  market_cap : Option String := none
  pe_ratio : Option ℚ := none
  returns : List (String × String) := []
  source_url : String := ""
  deriving DecidableEq

/-- `MarketOverviewResult` (pydantic model): index name → (value, change %),
and index name → source URL. -/
structure MarketOverviewResult where
  indices : List (String × (ℚ × ℚ)) := []
  source_urls : List (String × String) := []
  deriving DecidableEq

/-- One seed-fund dict of `_get_fallback_funds_data`, already converted to a
`FundResearchResult` (every conversion in `researcher.py` copies the dict
fields verbatim, and `__init__` derives `source_url`). -/
def mkSeedFund (code name : String) (nav : ℚ) (today : String)
    (cat house : String) (rets : List (String × String)) : FundResearchResult :=
  { scheme_code := code, scheme_name := name, nav := some nav,
    nav_date := some today, category := some cat, fund_house := some house,
    returns := rets, source_url := get_amfi_fund_url code }

/-- `_get_fallback_funds_data` (lines 19–59): the static seed funds, keyed by
category, with `nav_date` set to the current date string. -/
def _get_fallback_funds_data (today : String) :
    List (String × List FundResearchResult) :=
  [("large cap",
    [mkSeedFund "119598" "SBI Blue Chip Fund - Growth" 85.67 today "Large Cap" "SBI MF" [("1y", "15.3%"), ("3y", "12.8%")],
     mkSeedFund "118834" "HDFC Top 100 Fund - Growth" 924.12 today "Large Cap" "HDFC MF" [("1y", "14.7%"), ("3y", "11.9%")],
     mkSeedFund "120503" "Axis Bluechip Fund - Growth" 52.34 today "Large Cap" "Axis MF" [("1y", "13.8%"), ("3y", "10.5%")],
     mkSeedFund "118989" "Mirae Asset Large Cap Fund - Growth" 98.45 today "Large Cap" "Mirae Asset MF" [("1y", "17.5%"), ("3y", "14.2%")],
     mkSeedFund "120505" "ICICI Prudential Bluechip Fund - Growth" 78.92 today "Large Cap" "ICICI Prudential MF" [("1y", "16.2%"), ("3y", "13.1%")]]),
   ("mid cap",
    [mkSeedFund "118778" "Nippon India Growth Fund - Growth" 3245.67 today "Mid Cap" "Nippon India MF" [("1y", "26.8%"), ("3y", "21.5%")],
     mkSeedFund "120837" "Axis Midcap Fund - Growth" 89.23 today "Mid Cap" "Axis MF" [("1y", "22.5%"), ("3y", "18.2%")],
     mkSeedFund "118989" "Kotak Emerging Equity Fund - Growth" 95.67 today "Mid Cap" "Kotak MF" [("1y", "24.1%"), ("3y", "19.5%")],
     mkSeedFund "119064" "DSP Midcap Fund - Growth" 112.34 today "Mid Cap" "DSP MF" [("1y", "21.8%"), ("3y", "17.9%")]]),
   ("small cap",
    [mkSeedFund "125494" "Nippon India Small Cap Fund - Growth" 145.67 today "Small Cap" "Nippon India MF" [("1y", "32.5%"), ("3y", "25.2%")],
     mkSeedFund "125497" "SBI Small Cap Fund - Growth" 167.89 today "Small Cap" "SBI MF" [("1y", "28.7%"), ("3y", "22.1%")]]),
   ("index",
    [mkSeedFund "100356" "UTI Nifty 50 Index Fund - Growth" 145.67 today "Index Fund" "UTI MF" [("1y", "14.5%"), ("3y", "12.0%")],
     mkSeedFund "120684" "HDFC Index Fund - Nifty 50 Plan" 198.34 today "Index Fund" "HDFC MF" [("1y", "14.3%"), ("3y", "11.8%")]]),
   ("elss",
    [mkSeedFund "120503" "Axis Long Term Equity Fund - Growth" 78.45 today "ELSS" "Axis MF" [("1y", "16.2%"), ("3y", "13.5%")],
     mkSeedFund "119775" "Mirae Asset Tax Saver Fund - Growth" 42.67 today "ELSS" "Mirae Asset MF" [("1y", "18.9%"), ("3y", "15.2%")]]),
   ("flexi cap",
    [mkSeedFund "120847" "Parag Parikh Flexi Cap Fund - Growth" 67.89 today "Flexi Cap" "PPFAS MF" [("1y", "19.8%"), ("3y", "16.5%")],
     mkSeedFund "118825" "HDFC Flexi Cap Fund - Growth" 1456.78 today "Flexi Cap" "HDFC MF" [("1y", "17.2%"), ("3y", "14.8%")]]),
   ("debt",
    [mkSeedFund "119551" "HDFC Short Term Debt Fund - Growth" 28.45 today "Debt" "HDFC MF" [("1y", "7.2%"), ("3y", "6.8%")],
     mkSeedFund "119552" "ICICI Prudential Short Term Fund - Growth" 52.34 today "Debt" "ICICI Prudential MF" [("1y", "7.5%"), ("3y", "7.1%")]])]

/-- The scoring loop of `_get_fallback_funds_for_query` (lines 203–211): for
each query word, `+3` if it occurs in the lowercased scheme name, else `+2`
if in the fund house, else `+1` if in the category (the seed records always
carry a name, house and category). -/
def fallbackScore (query_words : List String) (fund : FundResearchResult) : Nat :=
  query_words.foldl (fun score word =>
    if strContains (toLowerStr fund.scheme_name) word then score + 3
    else if strContains (toLowerStr (fund.fund_house.getD "")) word then score + 2
    else if strContains (toLowerStr (fund.category.getD "")) word then score + 1
    else score) 0

/-- Python's `scored_funds.sort(key=lambda x: x[1], reverse=True)`: a stable
descending sort by score.  Insertion sort with `a.2 ≥ b.2` places each
element (which originates further left) before elements of equal score,
exactly as Python's stable sort orders ties. -/
def sortByScoreDesc (l : List (FundResearchResult × Nat)) :
    List (FundResearchResult × Nat) :=
  l.insertionSort (fun a b => a.2 ≥ b.2)

/-- The `fund_keywords` legacy map (lines 250–262), in insertion order. -/
def fund_keywords : List (String × String) :=
  [("sbi", "large cap"), ("hdfc", "large cap"), ("axis", "large cap"),
   ("icici", "large cap"), ("mirae", "large cap"), ("kotak", "mid cap"),
   ("nippon", "mid cap"), ("parag parikh", "flexi cap"), ("ppfas", "flexi cap"),
   ("uti", "index"), ("nifty", "index")]

/-- The inner filter of the keyword loop: funds of the mapped category whose
name or fund house contains the keyword. -/
def keywordMatchingFunds (fallback_data : List (String × List FundResearchResult))
    (keyword category : String) : List FundResearchResult :=
  ((fallback_data.lookup category).getD []).filter (fun f =>
    strContains (toLowerStr f.scheme_name) keyword ∨
      strContains (toLowerStr (f.fund_house.getD "")) keyword)

/-- `_get_fallback_funds_for_query` (lines 182–296). -/
def _get_fallback_funds_for_query (today query : String) :
    List FundResearchResult :=
  let query_lower := toLowerStr query
  let query_words := (pySplit query_lower).filter (fun w => w.length > 2)
  let fallback_data := _get_fallback_funds_data today
  let all_funds := (fallback_data.map Prod.snd).flatten
  let scored_funds := all_funds.filterMap (fun fund =>
    let score := fallbackScore query_words fund
    if score > 0 then some (fund, score) else none)
  if scored_funds ≠ [] then
    ((sortByScoreDesc scored_funds).take 5).map Prod.fst
  else
    match fallback_data.find? (fun p =>
        strContains query_lower p.1 ∨ strContains p.1 query_lower) with
    | some p => p.2
    | none =>
      match fund_keywords.find? (fun kc =>
          strContains query_lower kc.1 ∧
            keywordMatchingFunds fallback_data kc.1 kc.2 ≠ []) with
      | some kc => keywordMatchingFunds fallback_data kc.1 kc.2
      | none => ((fallback_data.lookup "large cap").getD []).take 3

/-! ## Query analyzer (`app/utils/query_analyzer.py`) -/

/-- `QueryAnalysis` dataclass with its defaults. -/
structure QueryAnalysis where
  fund_names : List String := []
  fund_categories : List String := []
  stock_symbols : List String := []
  intent : String := "general"
  needs_market_data : Bool := false
  search_terms : List String := []
  is_finance_related : Bool := true
  rejection_message : String := ""
  deriving DecidableEq

/-- The canned rejection message (`query_analyzer.py`, lines 178 and 216; the
same text is the `or`-default in `run_agent`). -/
def REJECTION_MESSAGE : String :=
  "I'm a financial advisor assistant specialized in Indian mutual funds and stocks. I can help you with investment queries, fund comparisons, market analysis, and portfolio recommendations. Please ask me something related to investments or finance!"

/-- `finance_keywords` (lines 207–211). -/
def finance_keywords : List String :=
  ["fund", "invest", "stock", "share", "market", "nifty", "sensex",
   "sip", "nav", "return", "portfolio", "mutual", "equity", "debt",
   "cap", "elss", "tax", "wealth", "money", "finance", "trading"]

/-- `category_keywords` (lines 220–229), in insertion order. -/
def category_keywords : List (String × List String) :=
  [("large cap", ["large cap", "largecap", "large-cap", "bluechip", "blue chip", "blue-chip"]),
   ("mid cap", ["mid cap", "midcap", "mid-cap"]),
   ("small cap", ["small cap", "smallcap", "small-cap"]),
   ("index", ["index fund", "nifty 50 fund", "sensex fund"]),
   ("elss", ["elss", "tax saving", "tax saver"]),
   ("debt", ["debt fund", "bond fund", "liquid fund", "money market"]),
   ("hybrid", ["hybrid", "balanced", "aggressive hybrid"]),
   ("flexi cap", ["flexi cap", "flexicap", "multi cap", "multicap"])]

/-- `fund_houses` of the analyzer (lines 238–242). -/
def analyzer_fund_houses : List String :=
  ["sbi", "hdfc", "icici", "axis", "kotak", "nippon", "aditya birla",
   "dsp", "uti", "tata", "franklin", "mirae", "parag parikh", "quant",
   "canara robeco", "bandhan", "edelweiss", "pgim", "motilal oswal", "invesco"]

/-- `stocks` of the analyzer (line 250). -/
def analyzer_stocks : List String :=
  ["reliance", "tcs", "infosys", "hdfc bank", "icici bank", "wipro", "hcl", "bharti airtel"]

/-- ASCII uppercase of a string (Python `str.upper` on the modelled data). -/
def toUpperStr (s : String) : String :=
  String.mk (s.toList.map (fun c =>
    if 'a' ≤ c ∧ c ≤ 'z' then Char.ofNat (c.toNat - 32) else c))

/-- Python `s.replace(" ", "")`. -/
def removeSpaces (s : String) : String :=
  String.mk (s.toList.filter (fun c => c ≠ ' '))

/-- `analyze_query_regex` (lines 198–269): the deterministic fallback
analyzer. -/
def analyze_query_regex (query : String) : QueryAnalysis :=
  let query_lower := toLowerStr query
  let is_finance := finance_keywords.any (fun kw => strContains query_lower kw)
  if ¬ is_finance then
    { intent := "off_topic", is_finance_related := false,
      rejection_message := REJECTION_MESSAGE }
  else
    let cats := (category_keywords.filter (fun ck =>
      ck.2.any (fun kw => strContains query_lower kw))).map Prod.fst
    let terms := analyzer_fund_houses.filter (fun h => strContains query_lower h)
    let stocks := (analyzer_stocks.filter (fun st => strContains query_lower st)).map
      (fun st => removeSpaces (toUpperStr st))
    let intent :=
      if ["compare", "vs", "versus", "better"].any (strContains query_lower ·) then "compare"
      else if ["best", "top", "recommend", "suggest"].any (strContains query_lower ·) then "recommend"
      else if ["worth", "should i", "good time", "analyze"].any (strContains query_lower ·) then "analyze"
      else if ["what is", "tell me about", "info"].any (strContains query_lower ·) then "info"
      else "general"
    let needs_market := ["market", "nifty", "sensex", "index"].any (strContains query_lower ·)
    { fund_categories := cats, search_terms := terms, stock_symbols := stocks,
      intent := intent, needs_market_data := needs_market,
      is_finance_related := true }

/-! ## Agent orchestration (`app/agents/investment_agent.py`)

The LLM calls and the live data providers are external collaborators; the
pure orchestration around them is embedded with the provider calls passed in
as function arguments (the "oracles"), so every theorem below holds for any
provider behaviour.
-/

/-- The fetched-data dict assembled by `fetch_relevant_data`. -/
structure FetchedData where
  funds : List FundResearchResult := []
  stocks : List StockResearchResult := []
  market : Option MarketOverviewResult := none
  categories : List (String × List FundResearchResult) := []
  date_range : Option DateRange := none
  fetched_at : String := ""
  deriving DecidableEq

/-- The fund-merge loop of `fetch_relevant_data` (lines 336–355): per search
query, stop when 5 funds have been collected, otherwise take the first 3
results and keep only funds whose `scheme_code` was not seen before (first
occurrence wins). -/
def fetchFundsLoop (research_fund : String → List FundResearchResult) :
    List String → List FundResearchResult → List String →
    List FundResearchResult
  | [], funds, _ => funds
  | search_query :: rest, funds, found_codes =>
    if funds.length ≥ 5 then funds
    else
      let results := research_fund search_query
      let step := (results.take 3).foldl
        (fun (acc : List FundResearchResult × List String) fund =>
          if acc.2.contains fund.scheme_code then acc
          else (acc.1 ++ [fund], acc.2 ++ [fund.scheme_code]))
        (funds, found_codes)
      fetchFundsLoop research_fund rest step.1 step.2

/-- `fetch_relevant_data` (lines 287–404), with the providers as oracles.
Returns the assembled data dict; the accompanying `QueryAnalysis` is the
`analysis` argument itself. -/
def fetch_relevant_data
    (research_fund : String → List FundResearchResult)
    (search_by_category : String → Nat → List FundResearchResult)
    (research_stock : String → Option StockResearchResult)
    (market_overview : MarketOverviewResult)
    (todayStr : String) (analysis : QueryAnalysis)
    (date_range : Option DateRange) : FetchedData :=
  let data0 : FetchedData := { date_range := date_range, fetched_at := todayStr }
  if ¬ analysis.is_finance_related ∨ analysis.intent = "off_topic" then
    data0
  else
    let q1 := analysis.fund_names.take 3
    let all_search_queries := (analysis.search_terms.take 5).foldl
      (fun acc term =>
        if (acc.map toLowerStr).contains (toLowerStr term) then acc
        else acc ++ [term]) q1
    let funds := fetchFundsLoop research_fund all_search_queries [] []
    let categories := (analysis.fund_categories.take 2).foldl
      (fun acc category =>
        let results := search_by_category category 5
        if results ≠ [] then acc ++ [(category, results)] else acc) []
    let categories :=
      if funds = [] ∧ categories = [] ∧
          ["recommend", "compare", "analyze"].contains analysis.intent then
        let results := search_by_category "large cap" 5
        if results ≠ [] then [("large cap", results)] else []
      else categories
    let market := if analysis.needs_market_data then some market_overview else none
    let stocks := (analysis.stock_symbols.take 3).filterMap research_stock
    { data0 with funds := funds, categories := categories,
                 market := market, stocks := stocks }

/-- Python `x or default` for an optional string (`None` and `""` are
falsy). -/
def orElseStr (o : Option String) (dflt : String) : String :=
  match o with
  | some s => if s = "" then dflt else s
  | none => dflt

/-- `returns.get("1Y", returns.get("1y", "N/A"))`. -/
def oneYearReturn (returns : List (String × String)) : String :=
  match returns.lookup "1Y" with
  | some v => v
  | none =>
    match returns.lookup "1y" with
    | some v => v
    | none => "N/A"

/-- Python truthiness of the optional `nav` float. -/
def navTruthy (nav : Option ℚ) : Bool :=
  match nav with
  | some q => q ≠ 0
  | none => false

/-- `create_data_points_from_data` (lines 469–501); `todayStr` is
`datetime.utcnow().strftime("%Y-%m-%d")`. -/
def create_data_points_from_data (todayStr : String) (data : FetchedData) :
    List DataPoint :=
  let fund_points := (data.funds.take 4).foldl (fun acc fund =>
    let acc := if navTruthy fund.nav then
        acc ++ [{ metric := fund.scheme_name.take 30 ++ "... NAV",
                  value := "₹" ++ optFloatRepr fund.nav,
                  as_of_date := orElseStr fund.nav_date todayStr }]
      else acc
    if fund.returns ≠ [] then
      acc ++ (fund.returns.take 1).map (fun pv =>
        { metric := fund.scheme_name.take 20 ++ "... " ++ pv.1 ++ " Return",
          value := pv.2,
          as_of_date := orElseStr fund.nav_date todayStr })
    else acc) []
  let cat_points := (data.categories.take 1).foldl (fun acc cat_data =>
    acc ++ (cat_data.2.take 3).filterMap (fun fund =>
      if fund.returns ≠ [] then
        some { metric := fund.scheme_name.take 25 ++ "...",
               value := "1Y: " ++ oneYearReturn fund.returns,
               as_of_date := orElseStr fund.nav_date todayStr }
      else none)) []
  (fund_points ++ cat_points).take 6

/-- `fund.source_url or` the inline AMFI template (lines 513/526). -/
def fundSourceUrl (fund : FundResearchResult) : String :=
  if fund.source_url = "" then
    "https://www.amfiindia.com/net-asset-value-details?SchemeCode=" ++ fund.scheme_code
  else fund.source_url

/-- `stock.source_url or` the inline Yahoo template (line 538). -/
def stockSourceUrl (stock : StockResearchResult) : String :=
  if stock.source_url = "" then
    "https://finance.yahoo.com/quote/" ++ stock.symbol ++ "/"
  else stock.source_url

/-- Fold step adding a source only when its URL is new (`added_urls`). -/
def addSourceIfNew (acc : List Source × List String) (s : Source) :
    List Source × List String :=
  if acc.2.contains s.url then acc else (acc.1 ++ [s], acc.2 ++ [s.url])

/-- `create_sources_from_data` (lines 504–568); `now` is
`datetime.utcnow()`. -/
def create_sources_from_data (now : Int) (data : FetchedData) : List Source :=
  let step1 := (data.funds.take 3).foldl (fun acc fund =>
    addSourceIfNew acc
      { name := "AMFI India - " ++ fund.scheme_name.take 40,
        url := fundSourceUrl fund, accessed_at := now }) ([], [])
  let step2 := (data.categories.take 1).foldl (fun acc cat_data =>
    (cat_data.2.take 2).foldl (fun acc' fund =>
      addSourceIfNew acc'
        { name := "AMFI India - " ++ fund.scheme_name.take 40,
          url := fundSourceUrl fund, accessed_at := now }) acc) step1
  let step3 := (data.stocks.take 3).foldl (fun acc stock =>
    addSourceIfNew acc
      { name := "Yahoo Finance - " ++ orElseStr stock.name stock.symbol,
        url := stockSourceUrl stock, accessed_at := now }) step2
  let step4 : List Source × List String := match data.market with
    | some market_data =>
      (market_data.source_urls.take 2).foldl (fun acc (iu : String × String) =>
        addSourceIfNew acc
          { name := "Yahoo Finance - " ++ iu.1, url := iu.2,
            accessed_at := now }) step3
    | none => step3
  if step4.1 = [] then
    [{ name := "AMFI India - NAV Data",
       url := "https://www.amfiindia.com/net-asset-value-details",
       accessed_at := now }]
  else step4.1

/-- The fixed no-data message of `_generate_fallback_explanation`
(line 585). -/
def NO_DATA_MESSAGE : String :=
  "I couldn't find specific data for your query. Please try asking about a specific mutual fund (e.g., 'SBI Bluechip Fund') or stock (e.g., 'Reliance Industries')."

/-- `_generate_fallback_explanation` (lines 571–625).  The `error_msg`
parameter is accepted and — exactly as in the source — never used: the text
depends only on the query and the fetched data. -/
def _generate_fallback_explanation (query : String) (data : FetchedData)
    (error_msg : String) : String :=
  let _ := error_msg
  if data.funds = [] ∧ data.categories = [] ∧ data.stocks = [] then
    NO_DATA_MESSAGE
  else
    let fund_sections : List String :=
      if data.funds ≠ [] then
        ["## Fund Information\n",
         "Here's what I found for your query about **" ++ query.take 50 ++ "**:\n"] ++
        (data.funds.take 3).foldl (fun acc fund =>
          acc ++
          ["### " ++ fund.scheme_name ++ "\n",
           "- **NAV:** ₹" ++ optFloatRepr fund.nav ++ " (as of " ++
             orElseStr fund.nav_date "today" ++ ")",
           "- **Category:** " ++ orElseStr fund.category "N/A",
           "- **Fund House:** " ++ orElseStr fund.fund_house "N/A"] ++
          (if fund.returns ≠ [] then
            ["- **Returns:** " ++
              String.intercalate ", " ((fund.returns.take 3).map
                (fun pv => pv.1 ++ ": " ++ pv.2))]
          else []) ++ [""]) []
      else []
    let cat_sections : List String :=
      (data.categories.take 1).foldl (fun acc cat_data =>
        acc ++ ["\n## Top " ++ titleStr cat_data.1 ++ " Funds\n"] ++
        (cat_data.2.take 5).enum.map (fun ifd =>
          let returns_str :=
            if ifd.2.returns ≠ [] then
              " | 1Y Return: " ++ oneYearReturn ifd.2.returns
            else ""
          toString (ifd.1 + 1) ++ ". **" ++ ifd.2.scheme_name ++ "** - NAV: ₹" ++
            optFloatRepr ifd.2.nav ++ returns_str)) []
    let stock_sections : List String :=
      if data.stocks ≠ [] then
        ["\n## Stock Information\n"] ++
        (data.stocks.take 3).map (fun stock =>
          "- **" ++ stock.symbol ++ ":** ₹" ++ optFloatRepr stock.current_price ++
            " (" ++ signedTwoDecimals stock.change_percent ++ "%)")
      else []
    let consideration_sections : List String :=
      ["\n## Key Considerations\n",
       "- Review the fund's historical performance across different time periods",
       "- Consider your investment horizon and risk tolerance",
       "- Compare expense ratios and fund manager track record",
       "- Diversify across multiple funds and asset classes"]
    String.intercalate "\n"
      (fund_sections ++ cat_sections ++ stock_sections ++ consideration_sections)

/-- The off-topic return of `run_agent` (lines 740–745).  The source builds
`InvestmentResponse(message=<rejection or canned default>, data_points=[],
sources=[], disclaimer="")`; `message` and `disclaimer` are not fields of the
pydantic model, which ignores unknown keyword arguments, so the response
keeps `explanation = ""` and the model-default disclaimer and the rejection
text is dropped. -/
def run_agent_off_topic_response (query_analysis : QueryAnalysis) :
    InvestmentResponse :=
  let _message := orElseStr (some query_analysis.rejection_message) REJECTION_MESSAGE
  { explanation := "", data_points := [], sources := [],
    risk_disclaimer := DEFAULT_MODEL_DISCLAIMER, confidence_score := 0.8 }

/-- The `except` arm of `run_agent` (lines 877–891): explanation from
`_generate_fallback_explanation`, backfilled data points and sources, the
standard disclaimer, and confidence `0.6`. -/
def run_agent_error_response (now : Int) (todayStr : String)
    (user_message : String) (fetched_data : FetchedData)
    (error_msg : String) : InvestmentResponse :=
  { explanation := _generate_fallback_explanation user_message fetched_data error_msg,
    data_points := create_data_points_from_data todayStr fetched_data,
    sources := create_sources_from_data now fetched_data,
    risk_disclaimer := STANDARD_RISK_DISCLAIMER,
    confidence_score := 0.6 }

/-! ## Regex date parser (`app/utils/date_parser.py`, lines 205–332)

Each of the nine `re.search` calls is embedded as a hand-compiled matcher:
`reSearch` tries the pattern at every position left to right (Python's
leftmost-match rule), tracking the previous character for `\b`.  The
patterns' character classes are disjoint wherever the regex engine could
backtrack (spaces, digits, word characters and the literal alternatives
never overlap), so maximal munch plus the explicit alternative fallbacks
below reproduce the engine's behaviour.
-/

/-- `\w` (the modelled queries are ASCII). -/
def isWordChar (c : Char) : Bool :=
  c.isAlphanum ∨ c = '_'

/-- Word-ness of the character before the match position (`none` at the
string start). -/
def isWordOpt : Option Char → Bool
  | none => false
  | some c => isWordChar c

/-- `\b` when the following pattern character is a word character: the
previous character must not be one. -/
def startBoundaryOk (prev : Option Char) : Bool :=
  ¬ isWordOpt prev

/-- `\b` after a word character: the next character must not be one. -/
def endBoundaryOk (cs : List Char) : Bool :=
  match cs with
  | [] => true
  | c :: _ => ¬ isWordChar c

/-- Try a matcher at every position, leftmost match first. -/
def searchFrom (m : Option Char → List Char → Option α) :
    Option Char → List Char → Option α
  | prev, [] => m prev []
  | prev, c :: rest =>
    match m prev (c :: rest) with
    | some r => some r
    | none => searchFrom m (some c) rest

/-- `re.search` of a hand-compiled pattern. -/
def reSearch (m : Option Char → List Char → Option α) (s : List Char) :
    Option α :=
  searchFrom m none s

/-- Match a literal, returning the remainder. -/
def dropLit (lit cs : List Char) : Option (List Char) :=
  if isPrefixList lit cs then some (cs.drop lit.length) else none

/-- First literal of an alternation that matches, with the remainder (the
alternatives used below are pairwise prefix-incompatible, so no
backtracking across them is ever needed). -/
def dropLitAlt (lits : List String) (cs : List Char) :
    Option (String × List Char) :=
  match lits with
  | [] => none
  | l :: ls =>
    match dropLit l.toList cs with
    | some rest => some (l, rest)
    | none => dropLitAlt ls cs

/-- `\d+` (maximal), with its numeric value. -/
def digits1 (cs : List Char) : Option (Nat × List Char) :=
  let ds := cs.takeWhile Char.isDigit
  if ds = [] then none
  else some (ds.foldl (fun n c => 10 * n + (c.toNat - 48)) 0, cs.drop ds.length)

/-- `\s*` (maximal). -/
def spaces0 (cs : List Char) : List Char :=
  cs.dropWhile isSpaceChar

/-- `\w+` (maximal), with the matched run. -/
def wordSpan1 (cs : List Char) : Option (List Char × List Char) :=
  let ws := cs.takeWhile isWordChar
  if ws = [] then none else some (ws, cs.drop ws.length)

/-- `20\d{2}`, with its numeric value. -/
def match20dd (cs : List Char) : Option (Int × List Char) :=
  match cs with
  | '2' :: '0' :: a :: b :: rest =>
    if a.isDigit ∧ b.isDigit then some (2000 + 10 * dv a + dv b, rest) else none
  | _ => none

/-- The `[-–to]+` character class of the year-range pattern. -/
def isRangeSep (c : Char) : Bool :=
  c = '-' ∨ c = '–' ∨ c = 't' ∨ c = 'o'

/-- `[-–to]+` (maximal, at least one). -/
def rangeSep1 (cs : List Char) : Option (List Char) :=
  let xs := cs.takeWhile isRangeSep
  if xs = [] then none else some (cs.drop xs.length)

/-- `(?:last|past|previous)\s+(\d+)\s*(year|month|week|day)s?`: captures the
count and the unit. -/
def matchRelativeAt (_prev : Option Char) (cs : List Char) :
    Option (Nat × String) :=
  match dropLitAlt ["last", "past", "previous"] cs with
  | some (_, r1) =>
    match skipSpaces1 r1 with
    | some r2 =>
      match digits1 r2 with
      | some (num, r3) =>
        match dropLitAlt ["year", "month", "week", "day"] (spaces0 r3) with
        | some (unit, _) => some (num, unit)
        | none => none
      | none => none
    | none => none
  | none => none

/-- `\b(?:last|past|previous)\s+year\b`. -/
def matchLastYearAt (prev : Option Char) (cs : List Char) : Option Unit :=
  if startBoundaryOk prev then
    match dropLitAlt ["last", "past", "previous"] cs with
    | some (_, r1) =>
      match skipSpaces1 r1 with
      | some r2 =>
        match dropLit "year".toList r2 with
        | some r3 => if endBoundaryOk r3 then some () else none
        | none => none
      | none => none
    | none => none
  else none

/-- `\bthis\s+year\b`. -/
def matchThisYearAt (prev : Option Char) (cs : List Char) : Option Unit :=
  if startBoundaryOk prev then
    match dropLit "this".toList cs with
    | some r1 =>
      match skipSpaces1 r1 with
      | some r2 =>
        match dropLit "year".toList r2 with
        | some r3 => if endBoundaryOk r3 then some () else none
        | none => none
      | none => none
    | none => none
  else none

/-- `\b(?:ytd|year\s+to\s+date)\b`. -/
def matchYtdAt (prev : Option Char) (cs : List Char) : Option Unit :=
  if startBoundaryOk prev then
    let ytd : Option Unit :=
      match dropLit "ytd".toList cs with
      | some r => if endBoundaryOk r then some () else none
      | none => none
    match ytd with
    | some r => some r
    | none =>
      match dropLit "year".toList cs with
      | some r1 =>
        match skipSpaces1 r1 with
        | some r2 =>
          match dropLit "to".toList r2 with
          | some r3 =>
            match skipSpaces1 r3 with
            | some r4 =>
              match dropLit "date".toList r4 with
              | some r5 => if endBoundaryOk r5 then some () else none
              | none => none
            | none => none
          | none => none
        | none => none
      | none => none
  else none

/-- `\b(20\d{2})\s*[-–to]+\s*(20\d{2}|2\d)\b`: captures the two year values
(a two-digit second year `d` is read as `20d`, i.e. `int("20" + s)`). -/
def matchYearRangeAt (prev : Option Char) (cs : List Char) :
    Option (Int × Int) :=
  if startBoundaryOk prev then
    match match20dd cs with
    | some (sy, r1) =>
      match rangeSep1 (spaces0 r1) with
      | some r3 =>
        let r4 := spaces0 r3
        let four : Option (Int × Int) :=
          match match20dd r4 with
          | some (ey, r5) => if endBoundaryOk r5 then some (sy, ey) else none
          | none => none
        match four with
        | some x => some x
        | none =>
          match r4 with
          | '2' :: a :: r5 =>
            if a.isDigit ∧ endBoundaryOk r5 then some (sy, 2020 + dv a) else none
          | _ => none
      | none => none
    | none => none
  else none

/-- `(\w+)\s+(20\d{2})\s*(?:to|-|–)\s*(\w+)\s+(20\d{2})`: captures the two
month words and the two years. -/
def matchMonthRangeAt (_prev : Option Char) (cs : List Char) :
    Option (String × Int × String × Int) :=
  match wordSpan1 cs with
  | some (w1, r1) =>
    match skipSpaces1 r1 with
    | some r2 =>
      match match20dd r2 with
      | some (sy, r3) =>
        match dropLitAlt ["to", "-", "–"] (spaces0 r3) with
        | some (_, r5) =>
          match wordSpan1 (spaces0 r5) with
          | some (w2, r6) =>
            match skipSpaces1 r6 with
            | some r7 =>
              match match20dd r7 with
              | some (ey, _) => some (String.mk w1, sy, String.mk w2, ey)
              | none => none
            | none => none
          | none => none
        | none => none
      | none => none
    | none => none
  | none => none

/-- `(?:since|from)\s+(\w+)\s+(20\d{2})`: captures the month word and the
year. -/
def matchSinceMonthAt (_prev : Option Char) (cs : List Char) :
    Option (String × Int) :=
  match dropLitAlt ["since", "from"] cs with
  | some (_, r1) =>
    match skipSpaces1 r1 with
    | some r2 =>
      match wordSpan1 r2 with
      | some (w, r3) =>
        match skipSpaces1 r3 with
        | some r4 =>
          match match20dd r4 with
          | some (y, _) => some (String.mk w, y)
          | none => none
        | none => none
      | none => none
    | none => none
  | none => none

/-- `(?:since|from)\s+(20\d{2})\b`. -/
def matchSinceYearAt (_prev : Option Char) (cs : List Char) : Option Int :=
  match dropLitAlt ["since", "from"] cs with
  | some (_, r1) =>
    match skipSpaces1 r1 with
    | some r2 =>
      match match20dd r2 with
      | some (y, r3) => if endBoundaryOk r3 then some y else none
      | none => none
    | none => none
  | none => none

/-- `\bin\s+(20\d{2})\b`. -/
def matchInYearAt (prev : Option Char) (cs : List Char) : Option Int :=
  if startBoundaryOk prev then
    match dropLit "in".toList cs with
    | some r1 =>
      match skipSpaces1 r1 with
      | some r2 =>
        match match20dd r2 with
        | some (y, r3) => if endBoundaryOk r3 then some y else none
        | none => none
      | none => none
    | none => none
  else none

/-- `MONTH_MAP` (lines 212–219). -/
def MONTH_MAP : List (String × Int) :=
  [("january", 1), ("jan", 1), ("february", 2), ("feb", 2),
   ("march", 3), ("mar", 3), ("april", 4), ("apr", 4),
   ("may", 5), ("june", 6), ("jun", 6), ("july", 7), ("jul", 7),
   ("august", 8), ("aug", 8), ("september", 9), ("sep", 9), ("sept", 9),
   ("october", 10), ("oct", 10), ("november", 11), ("nov", 11),
   ("december", 12), ("dec", 12)]

/-- Python `str.capitalize()`: first character uppercased, the rest
lowercased. -/
def capitalizeStr (s : String) : String :=
  match s.toList with
  | [] => ""
  | c :: rest =>
    String.mk ((if 'a' ≤ c ∧ c ≤ 'z' then Char.ofNat (c.toNat - 32) else c) ::
      rest.map lowerChar)

/-- The `"s" if num > 1 else ""` plural suffix. -/
def pluralSuffix (num : Nat) : String :=
  if num > 1 then "s" else ""

/-- Rule 1 (lines 223–243): `last/past/previous N year|month|week|day`. -/
def dateRuleRelative (today : Int) (q : List Char) : Option DateRange :=
  match reSearch matchRelativeAt q with
  | some (num, unit) =>
    if unit = "year" then
      some ⟨today - num * 365 * secPerDay, today,
        "Last " ++ toString num ++ " year" ++ pluralSuffix num⟩
    else if unit = "month" then
      some ⟨today - num * 30 * secPerDay, today,
        "Last " ++ toString num ++ " month" ++ pluralSuffix num⟩
    else if unit = "week" then
      some ⟨today - num * 7 * secPerDay, today,
        "Last " ++ toString num ++ " week" ++ pluralSuffix num⟩
    else
      some ⟨today - num * secPerDay, today,
        "Last " ++ toString num ++ " day" ++ pluralSuffix num⟩
  | none => none

/-- Rule 2 (lines 246–248): the bare `last/past/previous year`. -/
def dateRuleLastYear (today : Int) (q : List Char) : Option DateRange :=
  (reSearch matchLastYearAt q).map (fun _ =>
    ⟨today - 365 * secPerDay, today, "Last 1 year"⟩)

/-- Rule 3 (lines 251–253): `this year`. -/
def dateRuleThisYear (today : Int) (q : List Char) : Option DateRange :=
  (reSearch matchThisYearAt q).map (fun _ =>
    ⟨mkDatetime (yearOf today) 1 1, today,
      "Year " ++ toString (yearOf today) ++ " (YTD)"⟩)

/-- Rule 4 (lines 256–258): `ytd` / `year to date`. -/
def dateRuleYtd (today : Int) (q : List Char) : Option DateRange :=
  (reSearch matchYtdAt q).map (fun _ =>
    ⟨mkDatetime (yearOf today) 1 1, today,
      "Year to Date (" ++ toString (yearOf today) ++ ")"⟩)

/-- Rule 5 (lines 261–273): a four-digit year range; the end is clamped to
today, and no swap is performed when the range is reversed. -/
def dateRuleYearRange (today : Int) (q : List Char) : Option DateRange :=
  match reSearch matchYearRangeAt q with
  | some (sy, ey) =>
    let start := mkDatetime sy 1 1
    let end₀ := mkDatetime ey 12 31
    let end₁ := if end₀ > today then today else end₀
    some ⟨start, end₁, toString sy ++ "-" ++ toString ey⟩
  | none => none

/-- Rule 6 (lines 276–298): `month year to month year`; an unrecognized
month word makes the rule produce nothing (the source falls through). -/
def dateRuleMonthRange (today : Int) (q : List Char) : Option DateRange :=
  match reSearch matchMonthRangeAt q with
  | some (w1, sy, w2, ey) =>
    match MONTH_MAP.lookup w1, MONTH_MAP.lookup w2 with
    | some sm, some em =>
      let start := mkDatetime sy sm 1
      let end₀ := if em = 12 then mkDatetime ey 12 31
        else mkDatetime ey (em + 1) 1 - secPerDay
      let end₁ := if end₀ > today then today else end₀
      some ⟨start, end₁,
        capitalizeStr w1 ++ " " ++ toString sy ++ " to " ++
          capitalizeStr w2 ++ " " ++ toString ey⟩
    | _, _ => none
  | none => none

/-- Rule 7 (lines 301–311): `since/from month year`; an unrecognized month
falls through. -/
def dateRuleSinceMonth (today : Int) (q : List Char) : Option DateRange :=
  match reSearch matchSinceMonthAt q with
  | some (w, y) =>
    match MONTH_MAP.lookup w with
    | some m =>
      some ⟨mkDatetime y m 1, today,
        "Since " ++ capitalizeStr w ++ " " ++ toString y⟩
    | none => none
  | none => none

/-- Rule 8 (lines 314–319): `since/from year`. -/
def dateRuleSinceYear (today : Int) (q : List Char) : Option DateRange :=
  (reSearch matchSinceYearAt q).map (fun y =>
    ⟨mkDatetime y 1 1, today, "Since " ++ toString y⟩)

/-- Rule 9 (lines 322–330): `in year`, end clamped to today. -/
def dateRuleInYear (today : Int) (q : List Char) : Option DateRange :=
  match reSearch matchInYearAt q with
  | some y =>
    let end₀ := mkDatetime y 12 31
    let end₁ := if end₀ > today then today else end₀
    some ⟨mkDatetime y 1 1, end₁, "Year " ++ toString y⟩
  | none => none

/-- `parse_date_query_regex` (lines 205–332): the source's sequence of
pattern blocks, each returning on its first match, `None` after the last
block. -/
def parse_date_query_regex (today : Int) (query : String) : Option DateRange :=
  let query_lower := (toLowerStr query).toList
  match dateRuleRelative today query_lower with
  | some r => some r
  | none =>
  match dateRuleLastYear today query_lower with
  | some r => some r
  | none =>
  match dateRuleThisYear today query_lower with
  | some r => some r
  | none =>
  match dateRuleYtd today query_lower with
  | some r => some r
  | none =>
  match dateRuleYearRange today query_lower with
  | some r => some r
  | none =>
  match dateRuleMonthRange today query_lower with
  | some r => some r
  | none =>
  match dateRuleSinceMonth today query_lower with
  | some r => some r
  | none =>
  match dateRuleSinceYear today query_lower with
  | some r => some r
  | none => dateRuleInYear today query_lower

/-- First `some` in a list of attempts (first matching rule wins). -/
def firstSome : List (Option α) → Option α
  | [] => none
  | x :: xs =>
    match x with
    | some r => some r
    | none => firstSome xs

/-! ## Concrete fixtures for witnesses and counterexamples -/

/-- A fixed "now": 2026-10-12 15:30:45, as epoch seconds. -/
def sampleNow : Int :=
  mkDatetime 2026 10 12 + 55845

/-- The matching UTC day number (`datetime.utcnow().date()`). -/
def sampleDay : Int :=
  daysFromCivil 2026 10 12

/-- The matching date string. -/
def sampleTodayStr : String :=
  "2026-10-12"

/-- A data point whose `as_of_date` none of the three formats parses. -/
def unparseableDataPoint : DataPoint :=
  { metric := "SBI Blue Chip Fund - Growth... NAV", value := "₹85.67",
    as_of_date := "not-a-date" }

/-- A data point two days old at `sampleDay`. -/
def freshDataPoint : DataPoint :=
  { metric := "NAV", value := "₹85.67", as_of_date := "2026-10-10" }

/-- A source fixture. -/
def amfiSource : Source :=
  { name := "AMFI India - NAV Data",
    url := "https://www.amfiindia.com/net-asset-value-details",
    accessed_at := sampleNow }

/-- A healthy-looking response whose confidence score is `0.0`. -/
def zeroConfidenceResponse : InvestmentResponse :=
  { explanation := "The fund NAV is 85.67 as of today.",
    data_points := [freshDataPoint], sources := [amfiSource],
    risk_disclaimer := STANDARD_RISK_DISCLAIMER, confidence_score := 0 }

/-- The large-cap seed record with scheme code 118989 (`researcher.py`,
line 30). -/
def miraeLargeCapSeed : FundResearchResult :=
  mkSeedFund "118989" "Mirae Asset Large Cap Fund - Growth" 98.45 sampleTodayStr
    "Large Cap" "Mirae Asset MF" [("1y", "17.5%"), ("3y", "14.2%")]

/-- The mid-cap seed record that reuses scheme code 118989 (`researcher.py`,
line 36). -/
def kotakEmergingSeed : FundResearchResult :=
  mkSeedFund "118989" "Kotak Emerging Equity Fund - Growth" 95.67 sampleTodayStr
    "Mid Cap" "Kotak MF" [("1y", "24.1%"), ("3y", "19.5%")]

/-- A provider behaviour for the merge counterexample: each search query
returns one of the two code-118989 seed funds. -/
def collidingResearch (q : String) : List FundResearchResult :=
  if q = "mirae asset large cap" then [miraeLargeCapSeed]
  else if q = "kotak emerging equity" then [kotakEmergingSeed]
  else []

/-- The claim's freshness reading (C4): every data point's `as_of_date`
parses under an accepted format and is at most 7 days old.  Stated from the
spec's words, for comparison with `validate_data_freshness`. -/
def specDataFresh (todayD : Int) (data_points : List DataPoint) : Bool :=
  data_points.all (fun dp =>
    match parseAsOfDate dp.as_of_date with
    | some d => todayD - d ≤ 7
    | none => false)

/-- The claim's confidence formula (C4), from the spec's words. -/
def specConfidenceScore (todayD : Int) (data_points : List DataPoint)
    (sources : List Source) : ℚ :=
  min 1.0 (0.4 + (if data_points ≠ [] then 0.2 else 0)
    + (if sources ≠ [] then 0.2 else 0)
    + (if specDataFresh todayD data_points then 0.1 else 0) + 0.1)

/-! # Theorems -/

/-- `calculate_confidence_score` with the default `query_matched = true` is
at least `0.6` as soon as data points are present or the freshness flag
holds. -/
theorem calculate_confidence_score_ge (a b c : Bool)
    (h : a = true ∨ c = true) :
    0.6 ≤ calculate_confidence_score a b c true := by
  unfold calculate_confidence_score
  rw [le_min_iff]
  refine ⟨?_, by norm_num⟩
  rcases h with h | h <;> subst h <;> split_ifs <;> simp_all <;> norm_num

/-- The finalized confidence score, written as the claim writes it (the
`min` flipped, the compliance booleans unfolded). -/
theorem finalize_confidence_eq (todayD : Int) (explanation : String)
    (data_points : List DataPoint) (sources : List Source) :
    (finalize_response todayD explanation data_points sources).confidence_score =
      min 1.0 (0.4 + (if data_points ≠ [] then 0.2 else 0)
        + (if sources ≠ [] then 0.2 else 0)
        + (if (validate_data_freshness todayD data_points 7).1 then 0.1 else 0)
        + 0.1) := by
  show calculate_confidence_score _ _ _ true = _
  unfold calculate_confidence_score check_response_compliance
  rw [min_comm]
  simp only [if_true, decide_eq_true_eq]

/-- C10: every finalized response has confidence at least 0.6 — freshness
holds vacuously on an empty data-point list (+0.1) and the query-understood
default adds +0.1 over the 0.4 base, so no finalized response can fall below
the 0.5 cache-skip threshold. -/
theorem finalize_response_confidence_floor :
    (∀ todayD max_age_days,
      validate_data_freshness todayD [] max_age_days = (true, [])) ∧
    ∀ todayD explanation data_points sources,
      0.6 ≤ (finalize_response todayD explanation data_points sources).confidence_score := by
  constructor
  · intro t m
    rfl
  · intro t e dps srcs
    show 0.6 ≤ calculate_confidence_score _ _ _ true
    apply calculate_confidence_score_ge
    cases dps with
    | nil =>
      right
      rfl
    | cons d ds =>
      left
      simp [check_response_compliance]

/-- C5 (code bug): the cache-write guard `if response.confidence_score and
response.confidence_score < 0.5` does not fire when the score is the
Python-falsy `0.0`, so a zero-confidence response (with no error-indicator
phrase) IS written to the response cache and can be served on the next
identical request; a score of `0.4` is correctly skipped. -/
theorem cache_write_allowed_zero_confidence_bug :
    cache_write_allowed zeroConfidenceResponse = true ∧
    zeroConfidenceResponse.confidence_score < 0.5 ∧
    cache_write_allowed { zeroConfidenceResponse with confidence_score := 0.4 } = false := by
  refine ⟨?_, by norm_num [zeroConfidenceResponse], ?_⟩
  · unfold cache_write_allowed
    rw [if_neg (by norm_num [zeroConfidenceResponse])]
    decide
  · unfold cache_write_allowed
    rw [if_pos (by norm_num [zeroConfidenceResponse])]

/-- C4 counterexample: a data point whose `as_of_date` parses under no
accepted format still counts as fresh in `validate_data_freshness`, so the
code's confidence (0.8) differs from the claim's formula (0.7), which
requires every `as_of_date` to parse. -/
theorem finalize_response_unparseable_date_counterexample :
    (finalize_response sampleDay "ok explanation text" [unparseableDataPoint] []).confidence_score = 0.8 ∧
    specConfidenceScore sampleDay [unparseableDataPoint] [] = 0.7 ∧
    (0.8 : ℚ) ≠ 0.7 := by
  refine ⟨?_, ?_, by norm_num⟩
  · rw [finalize_confidence_eq,
      show (validate_data_freshness sampleDay [unparseableDataPoint] 7).1 = true from by decide]
    norm_num [min_def]
  · unfold specConfidenceScore
    rw [show specDataFresh sampleDay [unparseableDataPoint] = false from by decide]
    norm_num [min_def]

/-- C4 (amended): the finalized confidence equals
`min(1.0, 0.4 + 0.2·[data points] + 0.2·[sources] + 0.1·[fresh] + 0.1)`
where the freshness indicator is the code's: no data point whose
`as_of_date` *does* parse is more than 7 days old (unparseable dates count
as fresh).  Whenever every `as_of_date` parses, this agrees with the claim's
freshness reading; `finalize("", [], [])` is flagged non-compliant with the
standard disclaimer still attached, and a fresh data point plus a source
yields confidence ≥ 0.8. -/
theorem finalize_response_confidence_formula :
    (∀ todayD explanation data_points sources,
        (finalize_response todayD explanation data_points sources).confidence_score =
          min 1.0 (0.4 + (if data_points ≠ [] then 0.2 else 0)
            + (if sources ≠ [] then 0.2 else 0)
            + (if (validate_data_freshness todayD data_points 7).1 then 0.1 else 0)
            + 0.1)) ∧
    (∀ todayD data_points,
        data_points.all (fun dp => (parseAsOfDate dp.as_of_date).isSome) = true →
        (validate_data_freshness todayD data_points 7).1 =
          specDataFresh todayD data_points) ∧
    (check_response_compliance "" [] []).is_compliant = false ∧
    (finalize_response sampleDay "" [] []).risk_disclaimer = STANDARD_RISK_DISCLAIMER ∧
    0.8 ≤ (finalize_response sampleDay "ok explanation text" [freshDataPoint] [amfiSource]).confidence_score := by
  refine ⟨fun t e dps srcs => finalize_confidence_eq t e dps srcs, ?_, by decide,
    by decide, ?_⟩
  case refine_2 =>
    rw [finalize_confidence_eq,
      show (validate_data_freshness sampleDay [freshDataPoint] 7).1 = true from by decide]
    norm_num [min_def]
  case refine_1 =>
    intro t dps h
    induction dps with
    | nil => rfl
    | cons d ds ih =>
      simp only [List.all_cons, Bool.and_eq_true] at h
      obtain ⟨hd, hds⟩ := h
      obtain ⟨v, hv⟩ := Option.isSome_iff_exists.mp hd
      have ihv := ih hds
      simp only [validate_data_freshness, List.filterMap_cons, stalePointOf, hv,
        specDataFresh, List.all_cons] at ihv ⊢
      by_cases hgt : t - v > 7
      · rw [if_pos hgt]
        simp [show ¬(t - v ≤ 7) from by omega]
      · rw [if_neg hgt]
        simpa [show t - v ≤ 7 from by omega] using ihv

/-- C4 witness: the freshness agreement applied at a concrete parseable data
point. -/
theorem finalize_response_confidence_formula_witness :
    (validate_data_freshness sampleDay [freshDataPoint] 7).1 =
      specDataFresh sampleDay [freshDataPoint] :=
  finalize_response_confidence_formula.2.1 sampleDay [freshDataPoint] (by decide)

/-- `round(·, 2)` is exact on integer values. -/
theorem pyRound2_intCast (k : ℤ) : pyRound2 (k : ℝ) = k := by
  unfold pyRound2
  have h : ((k : ℝ) * 100) = ((k * 100 : ℤ) : ℝ) := by
    push_cast
    ring
  rw [h]
  simp only [Int.fract_intCast, round_intCast]
  rw [if_neg (by norm_num)]
  push_cast
  ring

/-- CAGR of a value compounded for `n` years at rate `r` recovers `r` (before
rounding). -/
theorem cagr_pow_round_trip (r : ℝ) (hr : 0 ≤ 1 + r) (n : ℕ) (hn : 0 < n)
    (hpos : 0 < (1 + r) ^ n) :
    calculate_cagr 100 (100 * (1 + r) ^ n) n = some (pyRound2 (r * 100)) := by
  unfold calculate_cagr
  rw [if_neg]
  · have h1 : (100 * (1 + r) ^ n) / 100 = (1 + r) ^ n := by
      field_simp
    have h2 : ((1 + r) ^ n : ℝ) ^ ((1 : ℝ) / (n : ℝ)) = 1 + r := by
      rw [← Real.rpow_natCast (1 + r) n, ← Real.rpow_mul hr,
        mul_one_div, div_self (by exact_mod_cast hn.ne' : (n : ℝ) ≠ 0),
        Real.rpow_one]
    have key : ((100 * (1 + r) ^ n) / 100) ^ ((1 : ℝ) / (n : ℝ)) - 1 = r := by
      rw [h1, h2]
      ring
    rw [key]
  · push_neg
    exact ⟨by norm_num, mul_pos (by norm_num) hpos,
      by exact_mod_cast hn⟩

/-- One round-trip instance, with the rounded value recognised as the
integer `k = r·100`. -/
theorem cagr_instance (r : ℝ) (k : ℤ) (n : ℕ) (hn : 0 < n) (hr : 0 ≤ 1 + r)
    (hpos : 0 < (1 + r) ^ n) (hk : r * 100 = (k : ℝ)) :
    calculate_cagr 100 (100 * (1 + r) ^ n) n = some (r * 100) := by
  rw [cagr_pow_round_trip r hr n hn hpos, hk, pyRound2_intCast]

/-- C9: `calculate_cagr(100, 100·(1+r)^n, n) = r·100` exactly (well within
the two-decimal rounding tolerance) for r ∈ {0.05, 0.12, 0.30} and
n ∈ {1, 3, 5}, and `calculate_cagr` returns `none` whenever the beginning
value, ending value, or year count is non-positive. -/
theorem calculate_cagr_round_trip_and_guard :
    (∀ beginning_value ending_value years : ℝ,
        beginning_value ≤ 0 ∨ ending_value ≤ 0 ∨ years ≤ 0 →
        calculate_cagr beginning_value ending_value years = none) ∧
    (calculate_cagr 100 (100 * (1 + 0.05) ^ (1 : ℕ)) ((1 : ℕ) : ℝ) = some (0.05 * 100) ∧
     calculate_cagr 100 (100 * (1 + 0.05) ^ (3 : ℕ)) ((3 : ℕ) : ℝ) = some (0.05 * 100) ∧
     calculate_cagr 100 (100 * (1 + 0.05) ^ (5 : ℕ)) ((5 : ℕ) : ℝ) = some (0.05 * 100)) ∧
    (calculate_cagr 100 (100 * (1 + 0.12) ^ (1 : ℕ)) ((1 : ℕ) : ℝ) = some (0.12 * 100) ∧
     calculate_cagr 100 (100 * (1 + 0.12) ^ (3 : ℕ)) ((3 : ℕ) : ℝ) = some (0.12 * 100) ∧
     calculate_cagr 100 (100 * (1 + 0.12) ^ (5 : ℕ)) ((5 : ℕ) : ℝ) = some (0.12 * 100)) ∧
    (calculate_cagr 100 (100 * (1 + 0.30) ^ (1 : ℕ)) ((1 : ℕ) : ℝ) = some (0.30 * 100) ∧
     calculate_cagr 100 (100 * (1 + 0.30) ^ (3 : ℕ)) ((3 : ℕ) : ℝ) = some (0.30 * 100) ∧
     calculate_cagr 100 (100 * (1 + 0.30) ^ (5 : ℕ)) ((5 : ℕ) : ℝ) = some (0.30 * 100)) := by
  refine ⟨?_, ⟨?_, ?_, ?_⟩, ⟨?_, ?_, ?_⟩, ⟨?_, ?_, ?_⟩⟩
  · intro bv ev y h
    unfold calculate_cagr
    rw [if_pos h]
  all_goals
    first
    | exact cagr_instance 0.05 5 _ (by norm_num) (by norm_num) (by positivity) (by norm_num)
    | exact cagr_instance 0.12 12 _ (by norm_num) (by norm_num) (by positivity) (by norm_num)
    | exact cagr_instance 0.30 30 _ (by norm_num) (by norm_num) (by positivity) (by norm_num)

/-- C9 witness: the non-positivity guard applied at a concrete input. -/
theorem calculate_cagr_round_trip_witness :
    calculate_cagr (-1) 100 1 = none :=
  calculate_cagr_round_trip_and_guard.1 (-1) 100 1 (Or.inl (by norm_num))

/-- Invariant of the inner add-if-new fold of `fetchFundsLoop`: scheme codes
of the collected funds stay pairwise distinct and are all recorded in
`found_codes`. -/
theorem addFundsStep_invariant (results : List FundResearchResult) :
    ∀ acc : List FundResearchResult × List String,
      (acc.1.map FundResearchResult.scheme_code).Nodup →
      (∀ c ∈ acc.1.map FundResearchResult.scheme_code, acc.2.contains c = true) →
      (((results.foldl (fun acc fund =>
            if acc.2.contains fund.scheme_code then acc
            else (acc.1 ++ [fund], acc.2 ++ [fund.scheme_code])) acc).1.map
          FundResearchResult.scheme_code).Nodup ∧
        ∀ c ∈ (results.foldl (fun acc fund =>
            if acc.2.contains fund.scheme_code then acc
            else (acc.1 ++ [fund], acc.2 ++ [fund.scheme_code])) acc).1.map
          FundResearchResult.scheme_code,
          (results.foldl (fun acc fund =>
            if acc.2.contains fund.scheme_code then acc
            else (acc.1 ++ [fund], acc.2 ++ [fund.scheme_code])) acc).2.contains c = true) := by
  induction results with
  | nil => exact fun acc h1 h2 => ⟨h1, h2⟩
  | cons f fs ih =>
    intro acc h1 h2
    simp only [List.foldl_cons]
    by_cases hc : acc.2.contains f.scheme_code = true
    · rw [if_pos hc]
      exact ih acc h1 h2
    · rw [if_neg hc]
      apply ih
      · simp only [List.map_append, List.map_cons, List.map_nil,
          List.nodup_append, List.nodup_cons, List.nodup_nil]
        refine ⟨h1, by simp, ?_⟩
        intro c hcmem hcsing
        simp only [List.mem_singleton] at hcsing
        subst hcsing
        exact hc (h2 _ hcmem)
      · intro c hcmem
        simp only [List.map_append, List.map_cons, List.map_nil,
          List.mem_append, List.mem_singleton] at hcmem
        rcases hcmem with hcmem | rfl
        · have h := h2 _ hcmem
          simp at h ⊢
          exact Or.inl h
        · simp

/-- The merged fund list of `fetch_relevant_data` has pairwise-distinct
scheme codes, for any provider behaviour. -/
theorem fetchFundsLoop_nodup_aux (research : String → List FundResearchResult) :
    ∀ (queries : List String) (funds : List FundResearchResult)
      (codes : List String),
      (funds.map FundResearchResult.scheme_code).Nodup →
      (∀ c ∈ funds.map FundResearchResult.scheme_code, codes.contains c = true) →
      ((fetchFundsLoop research queries funds codes).map
        FundResearchResult.scheme_code).Nodup := by
  intro queries
  induction queries with
  | nil => intro funds codes h1 _; exact h1
  | cons q qs ih =>
    intro funds codes h1 h2
    unfold fetchFundsLoop
    by_cases hlen : funds.length ≥ 5
    · rw [if_pos hlen]
      exact h1
    · rw [if_neg hlen]
      obtain ⟨h1', h2'⟩ :=
        addFundsStep_invariant ((research q).take 3) (funds, codes) h1 h2
      exact ih _ _ h1' h2'

/-- C8 (code bug): the per-cycle merge does de-duplicate by `scheme_code`
with the first occurrence winning — the merged list always has
pairwise-distinct codes — but `scheme_code` is *not* a unique key: the seed
data assigns code 118989 to both the Mirae large-cap fund and the Kotak
mid-cap fund (and 120503 to two Axis funds), so the merge silently drops the
distinct Kotak fund as a "duplicate". -/
theorem scheme_code_collision_merge_drop :
    (∀ (research : String → List FundResearchResult) (queries : List String),
        ((fetchFundsLoop research queries [] []).map
          FundResearchResult.scheme_code).Nodup) ∧
    ((((_get_fallback_funds_data sampleTodayStr).map Prod.snd).flatten.filter
        (fun f => f.scheme_code = "118989")).map FundResearchResult.scheme_name =
      ["Mirae Asset Large Cap Fund - Growth", "Kotak Emerging Equity Fund - Growth"]) ∧
    ((((_get_fallback_funds_data sampleTodayStr).map Prod.snd).flatten.filter
        (fun f => f.scheme_code = "120503")).map FundResearchResult.scheme_name =
      ["Axis Bluechip Fund - Growth", "Axis Long Term Equity Fund - Growth"]) ∧
    (fetchFundsLoop collidingResearch
        ["mirae asset large cap", "kotak emerging equity"] [] []).map
        (fun f => (f.scheme_code, f.scheme_name)) =
      [("118989", "Mirae Asset Large Cap Fund - Growth")] := by
  refine ⟨?_, by decide, by decide, by decide⟩
  intro research queries
  exact fetchFundsLoop_nodup_aux research queries [] [] (by simp) (by simp)

/-- The query-word scoring fold, written as the claim writes it: a sum of
per-word contributions (+3 name, else +2 house, else +1 category). -/
theorem fallbackScore_eq_sum (query_words : List String)
    (fund : FundResearchResult) :
    fallbackScore query_words fund =
      (query_words.map (fun word =>
        if strContains (toLowerStr fund.scheme_name) word then 3
        else if strContains (toLowerStr (fund.fund_house.getD "")) word then 2
        else if strContains (toLowerStr (fund.category.getD "")) word then 1
        else 0)).sum := by
  unfold fallbackScore
  suffices h : ∀ init : Nat, query_words.foldl (fun score word =>
      if strContains (toLowerStr fund.scheme_name) word then score + 3
      else if strContains (toLowerStr (fund.fund_house.getD "")) word then score + 2
      else if strContains (toLowerStr (fund.category.getD "")) word then score + 1
      else score) init =
      init + (query_words.map (fun word =>
        if strContains (toLowerStr fund.scheme_name) word then 3
        else if strContains (toLowerStr (fund.fund_house.getD "")) word then 2
        else if strContains (toLowerStr (fund.category.getD "")) word then 1
        else 0)).sum by
    simpa using h 0
  induction query_words with
  | nil => simp
  | cons w ws ih =>
    intro init
    simp only [List.foldl_cons, List.map_cons, List.sum_cons, ih]
    split_ifs <;> omega

/-- The stable sort is a permutation, hence length-preserving. -/
theorem sortByScoreDesc_length (l : List (FundResearchResult × Nat)) :
    (sortByScoreDesc l).length = l.length :=
  (List.perm_insertionSort _ l).length_eq

/-- The stable sort really sorts scores in non-increasing order. -/
theorem sortByScoreDesc_sorted (l : List (FundResearchResult × Nat)) :
    (sortByScoreDesc l).Sorted (fun a b => a.2 ≥ b.2) := by
  haveI : IsTotal (FundResearchResult × Nat) (fun a b => a.2 ≥ b.2) :=
    ⟨fun a b => le_total b.2 a.2⟩
  haveI : IsTrans (FundResearchResult × Nat) (fun a b => a.2 ≥ b.2) :=
    ⟨fun _ _ _ hab hbc => le_trans hbc hab⟩
  exact List.sorted_insertionSort _ l

/-- Every category list of the seed table holds between 1 and 5 funds. -/
theorem fallback_table_lists (today : String) :
    ∀ p ∈ _get_fallback_funds_data today, p.2.length ≤ 5 ∧ p.2 ≠ [] := by
  intro p hp
  simp only [_get_fallback_funds_data, List.mem_cons, List.not_mem_nil,
    or_false] at hp
  rcases hp with rfl | rfl | rfl | rfl | rfl | rfl | rfl <;> exact ⟨by simp, by simp⟩

/-- Looking any category up in the seed table yields at most 5 funds. -/
theorem fallback_lookup_short (today cat : String) :
    (((_get_fallback_funds_data today).lookup cat).getD []).length ≤ 5 := by
  simp only [_get_fallback_funds_data, List.lookup]
  repeat' split
  all_goals simp

/-- The scored tier of the fallback returns between 1 and 5 funds. -/
theorem scored_tier_bounds (l : List (FundResearchResult × Nat)) (h : l ≠ []) :
    (((sortByScoreDesc l).take 5).map Prod.fst).length ≤ 5 ∧
      ((sortByScoreDesc l).take 5).map Prod.fst ≠ [] := by
  have hpos : 0 < (sortByScoreDesc l).length := by
    rw [sortByScoreDesc_length]
    exact List.length_pos.mpr h
  constructor
  · simp [List.length_take]
  · intro hnil
    rw [← List.length_eq_zero] at hnil
    simp only [List.length_map, List.length_take] at hnil
    omega

/-- C7: the fund fallback tokenizes the query into words longer than 2
characters, scores every seed fund (+3 per word hit in the name, else +2 in
the fund house, else +1 in the category), stably sorts descending and caps
at 5; on an all-zero score it falls back in order to category-literal
containment, the fund-house→category keyword map, and the top-3 default
large-cap slice — so the result always holds 1 to 5 funds.  The four
concrete queries pin one tier each: "best large cap funds" (scored, sorted
descending, capped at 5), "mi" (category containment, all 4 mid-cap funds),
"absbix" (keyword map: "sbi" ⊆ query, large-cap funds containing "sbi"),
"qq" (default top-3 large-cap slice). -/
theorem fallback_funds_scored_capped_tiered :
    (∀ query_words fund, fallbackScore query_words fund =
      (query_words.map (fun word =>
        if strContains (toLowerStr fund.scheme_name) word then 3
        else if strContains (toLowerStr (fund.fund_house.getD "")) word then 2
        else if strContains (toLowerStr (fund.category.getD "")) word then 1
        else 0)).sum) ∧
    (∀ l, (sortByScoreDesc l).Sorted (fun a b => a.2 ≥ b.2)) ∧
    (∀ today query, (_get_fallback_funds_for_query today query).length ≤ 5 ∧
      _get_fallback_funds_for_query today query ≠ []) ∧
    ((_get_fallback_funds_for_query sampleTodayStr "best large cap funds").map
      FundResearchResult.scheme_code = ["118989", "120837", "119064", "125494", "125497"]) ∧
    ((_get_fallback_funds_for_query sampleTodayStr "mi").map
      FundResearchResult.scheme_code = ["118778", "120837", "118989", "119064"]) ∧
    ((_get_fallback_funds_for_query sampleTodayStr "absbix").map
      FundResearchResult.scheme_code = ["119598"]) ∧
    ((_get_fallback_funds_for_query sampleTodayStr "qq").map
      FundResearchResult.scheme_code = ["119598", "118834", "120503"]) := by
  refine ⟨fallbackScore_eq_sum, sortByScoreDesc_sorted, ?_, by decide, by decide,
    by decide, by decide⟩
  intro today query
  unfold _get_fallback_funds_for_query
  simp only []
  split_ifs with hsc
  · exact scored_tier_bounds _ hsc
  · cases hfind : (_get_fallback_funds_data today).find? (fun p =>
        strContains (toLowerStr query) p.1 ∨ strContains p.1 (toLowerStr query)) with
    | some p =>
      simp only [hfind]
      exact fallback_table_lists today p (List.mem_of_find?_eq_some hfind)
    | none =>
      simp only [hfind]
      cases hkw : fund_keywords.find? (fun kc =>
          strContains (toLowerStr query) kc.1 ∧
            keywordMatchingFunds (_get_fallback_funds_data today) kc.1 kc.2 ≠ []) with
      | some kc =>
        simp only [hkw]
        constructor
        · exact le_trans (List.length_filter_le _ _) (fallback_lookup_short today kc.2)
        · have hprop := List.find?_some hkw
          simp only [Bool.and_eq_true, decide_eq_true_eq] at hprop
          exact hprop.2
      | none =>
        simp only [hkw]
        exact ⟨by simp [_get_fallback_funds_data], by simp [_get_fallback_funds_data]⟩

/-- The period key is always one of the six canonical buckets. -/
theorem periodKey_mem (r : DateRange) :
    get_period_key_for_range r ∈ ["1m", "3m", "6m", "1y", "3y", "5y"] := by
  unfold get_period_key_for_range
  dsimp only
  split_ifs <;> simp

/-- A clamped end date never exceeds today. -/
theorem clamp_le (x t : Int) : (if x > t then t else x) ≤ t := by
  split_ifs <;> omega

/-- The source's sequential pattern blocks are the first-match-wins sweep of
the nine rules over the lowercased query. -/
theorem parse_regex_eq_rules (today : Int) (query : String) :
    parse_date_query_regex today query =
      firstSome [dateRuleRelative today (toLowerStr query).toList,
        dateRuleLastYear today (toLowerStr query).toList,
        dateRuleThisYear today (toLowerStr query).toList,
        dateRuleYtd today (toLowerStr query).toList,
        dateRuleYearRange today (toLowerStr query).toList,
        dateRuleMonthRange today (toLowerStr query).toList,
        dateRuleSinceMonth today (toLowerStr query).toList,
        dateRuleSinceYear today (toLowerStr query).toList,
        dateRuleInYear today (toLowerStr query).toList] := by
  simp only [firstSome, parse_date_query_regex]
  cases dateRuleRelative today (toLowerStr query).toList with
  | some r => rfl
  | none =>
  cases dateRuleLastYear today (toLowerStr query).toList with
  | some r => rfl
  | none =>
  cases dateRuleThisYear today (toLowerStr query).toList with
  | some r => rfl
  | none =>
  cases dateRuleYtd today (toLowerStr query).toList with
  | some r => rfl
  | none =>
  cases dateRuleYearRange today (toLowerStr query).toList with
  | some r => rfl
  | none =>
  cases dateRuleMonthRange today (toLowerStr query).toList with
  | some r => rfl
  | none =>
  cases dateRuleSinceMonth today (toLowerStr query).toList with
  | some r => rfl
  | none =>
  cases dateRuleSinceYear today (toLowerStr query).toList with
  | some r => rfl
  | none =>
  cases dateRuleInYear today (toLowerStr query).toList with
  | some r => rfl
  | none => rfl

/-- A first-match result is one of the attempted rules' results. -/
theorem firstSome_mem {α : Type} :
    ∀ (l : List (Option α)) (r : α), firstSome l = some r → some r ∈ l := by
  intro l
  induction l with
  | nil =>
    intro r h
    exact absurd h (by simp [firstSome])
  | cons x xs ih =>
    intro r h
    unfold firstSome at h
    cases x with
    | some a =>
      cases h
      exact List.mem_cons_self _ _
    | none => exact List.mem_cons_of_mem _ (ih r h)

/-- Rule 1 always ends at today. -/
theorem dateRuleRelative_end_le (today : Int) (q : List Char) (r : DateRange)
    (h : dateRuleRelative today q = some r) : r.end_date ≤ today := by
  unfold dateRuleRelative at h
  cases hm : reSearch matchRelativeAt q with
  | none => rw [hm] at h; simp at h
  | some nu =>
    obtain ⟨num, unit⟩ := nu
    rw [hm] at h
    dsimp only at h
    split_ifs at h <;> (obtain rfl := (Option.some.inj h).symm; exact le_refl today)

/-- Rule 2 always ends at today. -/
theorem dateRuleLastYear_end_le (today : Int) (q : List Char) (r : DateRange)
    (h : dateRuleLastYear today q = some r) : r.end_date ≤ today := by
  unfold dateRuleLastYear at h
  rw [Option.map_eq_some'] at h
  obtain ⟨u, -, rfl⟩ := h
  exact le_refl today

/-- Rule 3 always ends at today. -/
theorem dateRuleThisYear_end_le (today : Int) (q : List Char) (r : DateRange)
    (h : dateRuleThisYear today q = some r) : r.end_date ≤ today := by
  unfold dateRuleThisYear at h
  rw [Option.map_eq_some'] at h
  obtain ⟨u, -, rfl⟩ := h
  exact le_refl today

/-- Rule 4 always ends at today. -/
theorem dateRuleYtd_end_le (today : Int) (q : List Char) (r : DateRange)
    (h : dateRuleYtd today q = some r) : r.end_date ≤ today := by
  unfold dateRuleYtd at h
  rw [Option.map_eq_some'] at h
  obtain ⟨u, -, rfl⟩ := h
  exact le_refl today

/-- Rule 5 clamps its end to today. -/
theorem dateRuleYearRange_end_le (today : Int) (q : List Char) (r : DateRange)
    (h : dateRuleYearRange today q = some r) : r.end_date ≤ today := by
  unfold dateRuleYearRange at h
  cases hm : reSearch matchYearRangeAt q with
  | none => rw [hm] at h; simp at h
  | some se =>
    obtain ⟨sy, ey⟩ := se
    rw [hm] at h
    dsimp only at h
    obtain rfl := (Option.some.inj h).symm
    exact clamp_le _ _

/-- Rule 6 clamps its end to today. -/
theorem dateRuleMonthRange_end_le (today : Int) (q : List Char) (r : DateRange)
    (h : dateRuleMonthRange today q = some r) : r.end_date ≤ today := by
  unfold dateRuleMonthRange at h
  cases hm : reSearch matchMonthRangeAt q with
  | none => rw [hm] at h; simp at h
  | some w =>
    obtain ⟨w1, sy, w2, ey⟩ := w
    rw [hm] at h
    dsimp only at h
    cases h1 : MONTH_MAP.lookup w1 with
    | none => rw [h1] at h; simp at h
    | some sm =>
      cases h2 : MONTH_MAP.lookup w2 with
      | none => rw [h1, h2] at h; simp at h
      | some em =>
        rw [h1, h2] at h
        dsimp only at h
        obtain rfl := (Option.some.inj h).symm
        exact clamp_le _ _

/-- Rule 7 always ends at today. -/
theorem dateRuleSinceMonth_end_le (today : Int) (q : List Char) (r : DateRange)
    (h : dateRuleSinceMonth today q = some r) : r.end_date ≤ today := by
  unfold dateRuleSinceMonth at h
  cases hm : reSearch matchSinceMonthAt q with
  | none => rw [hm] at h; simp at h
  | some wy =>
    obtain ⟨w, y⟩ := wy
    rw [hm] at h
    dsimp only at h
    cases h1 : MONTH_MAP.lookup w with
    | none => rw [h1] at h; simp at h
    | some m =>
      rw [h1] at h
      dsimp only at h
      obtain rfl := (Option.some.inj h).symm
      exact le_refl today

/-- Rule 8 always ends at today. -/
theorem dateRuleSinceYear_end_le (today : Int) (q : List Char) (r : DateRange)
    (h : dateRuleSinceYear today q = some r) : r.end_date ≤ today := by
  unfold dateRuleSinceYear at h
  rw [Option.map_eq_some'] at h
  obtain ⟨y, -, rfl⟩ := h
  exact le_refl today

/-- Rule 9 clamps its end to today. -/
theorem dateRuleInYear_end_le (today : Int) (q : List Char) (r : DateRange)
    (h : dateRuleInYear today q = some r) : r.end_date ≤ today := by
  unfold dateRuleInYear at h
  cases hm : reSearch matchInYearAt q with
  | none => rw [hm] at h; simp at h
  | some y =>
    rw [hm] at h
    dsimp only at h
    obtain rfl := (Option.some.inj h).symm
    exact clamp_le _ _

/-- C2 (amended): whenever the regex fallback resolves a range, its end is
clamped to "now" (`end ≤ now` for every rule) and the period key is one of
the six canonical buckets; `start ≤ end` is NOT guaranteed — the regex
fallback never swaps a reversed range (the swap exists only in the LLM
strategy). -/
theorem parse_date_query_regex_end_clamped_period_key (today : Int)
    (query : String) (r : DateRange)
    (h : parse_date_query_regex today query = some r) :
    r.end_date ≤ today ∧
      get_period_key_for_range r ∈ ["1m", "3m", "6m", "1y", "3y", "5y"] := by
  refine ⟨?_, periodKey_mem r⟩
  rw [parse_regex_eq_rules] at h
  have hmem := firstSome_mem _ _ h
  simp only [List.mem_cons, List.not_mem_nil, or_false] at hmem
  rcases hmem with h1 | h1 | h1 | h1 | h1 | h1 | h1 | h1 | h1
  · exact dateRuleRelative_end_le _ _ _ h1.symm
  · exact dateRuleLastYear_end_le _ _ _ h1.symm
  · exact dateRuleThisYear_end_le _ _ _ h1.symm
  · exact dateRuleYtd_end_le _ _ _ h1.symm
  · exact dateRuleYearRange_end_le _ _ _ h1.symm
  · exact dateRuleMonthRange_end_le _ _ _ h1.symm
  · exact dateRuleSinceMonth_end_le _ _ _ h1.symm
  · exact dateRuleSinceYear_end_le _ _ _ h1.symm
  · exact dateRuleInYear_end_le _ _ _ h1.symm

/-- C2 witness: the theorem applied to "last year" at the fixed now. -/
theorem parse_date_query_regex_end_clamped_period_key_witness :
    (⟨sampleNow - 365 * secPerDay, sampleNow, "Last 1 year"⟩ : DateRange).end_date ≤ sampleNow ∧
      get_period_key_for_range ⟨sampleNow - 365 * secPerDay, sampleNow, "Last 1 year"⟩ ∈
        ["1m", "3m", "6m", "1y", "3y", "5y"] :=
  parse_date_query_regex_end_clamped_period_key sampleNow "last year" _ (by decide)

/-- C2 counterexample: the reversed year range "2025 to 2024" resolves to
start 2025-01-01 and end 2024-12-31 — start is after end and no swap is
performed, refuting `start ≤ end ≤ now` as stated. -/
theorem parse_date_query_regex_no_swap_counterexample :
    parse_date_query_regex sampleNow "2025 to 2024" =
      some ⟨mkDatetime 2025 1 1, mkDatetime 2024 12 31, "2025-2024"⟩ ∧
    mkDatetime 2024 12 31 < mkDatetime 2025 1 1 := by
  exact ⟨by decide, by decide⟩

/-- C6 (amended): the regex fallback evaluates exactly nine pattern rules in
this precedence — (1) last/past/previous N years|months|weeks|days, (2) the
bare "last/past/previous year", (3) "this year", (4) "ytd"/"year to date",
(5) a four-digit year range, (6) month-year to month-year, (7) since/from
month year, (8) since/from year, (9) in year — returning the first matching
rule's range (a month rule whose month word is unrecognized produces
nothing and falls through), and no range when no rule matches.  There is no
generic suffix-token rule: "1y"/"3y"/"5y"/"6m" tokens match nothing. -/
theorem parse_date_query_regex_rule_precedence (today : Int) (query : String) :
    parse_date_query_regex today query =
      firstSome ([dateRuleRelative, dateRuleLastYear, dateRuleThisYear,
        dateRuleYtd, dateRuleYearRange, dateRuleMonthRange, dateRuleSinceMonth,
        dateRuleSinceYear, dateRuleInYear].map
        (fun rule => rule today (toLowerStr query).toList)) := by
  simpa using parse_regex_eq_rules today query

/-- C6 counterexample: the claim's ninth rule (generic suffix tokens like
"1y"/"3y"/"6m") does not exist — such queries resolve to no date range. -/
theorem parse_date_query_regex_no_suffix_token_rule :
    parse_date_query_regex sampleNow "1y" = none ∧
    parse_date_query_regex sampleNow "show me 1y returns" = none ∧
    parse_date_query_regex sampleNow "best 3y funds" = none ∧
    parse_date_query_regex sampleNow "6m performance" = none := by
  exact ⟨by decide, by decide, by decide, by decide⟩

/-- C3 counterexample: a rate-limit error text and a timeout error text
produce byte-identical responses, and the no-data default message contains
no "rephras(e)" wording — the user-facing message is not picked by
classifying the error text. -/
theorem run_agent_error_response_no_classification_counterexample :
    run_agent_error_response sampleNow sampleTodayStr "query" {}
        "Error code: 429 - rate limit exceeded" =
      run_agent_error_response sampleNow sampleTodayStr "query" {}
        "Request timed out" ∧
    strContains
      (toLowerStr (run_agent_error_response sampleNow sampleTodayStr "query" {}
        "Error code: 429 - rate limit exceeded").explanation) "rephras" = false := by
  exact ⟨rfl, by decide⟩

/-- C3 (amended): on any exception during model-tier selection, prompt
assembly or the final LLM call, the Agent Runner returns a response whose
explanation is backfilled from the already-fetched data (the fixed
"couldn't find specific data" message when nothing was fetched), whose data
points and sources are backfilled deterministically from that data, with
the standard disclaimer and the fixed reduced confidence score 0.6.  The
error text is ignored: the response does not depend on it, and no
rate-limit / timeout / validation keyword classification (nor a "please
rephrase" default) exists in the handler. -/
theorem run_agent_error_response_ignores_error_text :
    (∀ (now : Int) (todayStr user_message : String) (fetched_data : FetchedData)
        (e₁ e₂ : String),
        run_agent_error_response now todayStr user_message fetched_data e₁ =
          run_agent_error_response now todayStr user_message fetched_data e₂) ∧
    (∀ (now : Int) (todayStr user_message : String) (fetched_data : FetchedData)
        (error_msg : String),
        (run_agent_error_response now todayStr user_message fetched_data
            error_msg).explanation =
          _generate_fallback_explanation user_message fetched_data error_msg ∧
        (run_agent_error_response now todayStr user_message fetched_data
            error_msg).data_points = create_data_points_from_data todayStr fetched_data ∧
        (run_agent_error_response now todayStr user_message fetched_data
            error_msg).sources = create_sources_from_data now fetched_data ∧
        (run_agent_error_response now todayStr user_message fetched_data
            error_msg).risk_disclaimer = STANDARD_RISK_DISCLAIMER ∧
        (run_agent_error_response now todayStr user_message fetched_data
            error_msg).confidence_score = 0.6) ∧
    (∀ (user_message error_msg todayStr : String) (dr : Option DateRange),
        _generate_fallback_explanation user_message
          { date_range := dr, fetched_at := todayStr } error_msg =
          NO_DATA_MESSAGE) := by
  refine ⟨fun now t u d e₁ e₂ => rfl, fun now t u d e => ⟨rfl, rfl, rfl, rfl, rfl⟩,
    fun u e t dr => rfl⟩

/-- C1 (code bug): for the off-topic query "whats the weather today" the
analyzer flags non-finance with a non-empty canned rejection message, and
the runner does skip all data fetching (the fetched dict keeps its empty
initial value for any provider behaviour) and returns empty
data_points/sources — but the response's explanation is EMPTY: the
rejection text is passed to the nonexistent `message=` field of
`InvestmentResponse` (and `disclaimer=""` to a nonexistent `disclaimer=`
field), which pydantic silently drops, so the claimed non-empty rejection
explanation never reaches the caller. -/
theorem run_agent_off_topic_drops_rejection :
    (analyze_query_regex "whats the weather today").is_finance_related = false ∧
    (analyze_query_regex "whats the weather today").rejection_message ≠ "" ∧
    (∀ (research : String → List FundResearchResult)
        (search_cat : String → Nat → List FundResearchResult)
        (stock : String → Option StockResearchResult)
        (market : MarketOverviewResult) (todayStr : String)
        (dr : Option DateRange),
        fetch_relevant_data research search_cat stock market todayStr
          (analyze_query_regex "whats the weather today") dr =
          { date_range := dr, fetched_at := todayStr }) ∧
    (run_agent_off_topic_response
      (analyze_query_regex "whats the weather today")).data_points = [] ∧
    (run_agent_off_topic_response
      (analyze_query_regex "whats the weather today")).sources = [] ∧
    (run_agent_off_topic_response
      (analyze_query_regex "whats the weather today")).explanation = "" := by
  refine ⟨by decide, by decide, ?_, rfl, rfl, rfl⟩
  intro research search_cat stock market todayStr dr
  have hc : ¬((analyze_query_regex "whats the weather today").is_finance_related = true) := by
    decide
  unfold fetch_relevant_data
  rw [if_pos (Or.inl hc)]

end FinAI
